import Mathlib

/-!
# Chat client of `frontend/script.js`

A shallow embedding of the browser-side chat widget: the three module-level
variables (`sessionId`, `isProcessing`, `downloadUrl`), the five DOM elements the
script holds, and every function of the script as a state transformer.

Conventions of the embedding.

* JavaScript values that reach the script from a parsed response body are `JsVal`;
  a parsed object is its property map (`JsObj`), absent properties reading
  `undefined`. A number is known by its truthiness and its ToString, arrays hold
  strings (the shape of the HTTP interface), and `JsVal.obj` is a nested object
  that has no property `toString` or `valueOf` of its own.
* An `async` function runs synchronously up to its first `await`, so each of
  `startSession`, `sendMessage`, `generateCourse` is split into the part that
  issues the request and the continuation that receives the request's `Outcome`.
  The network is the log `Client.requests`.
* The transcript `chatHistory` is the list of its child nodes. Elements carrying
  the id `loadingIndicator` are the placeholders `showLoading` appends to it and
  whatever the markup assigned to `courseInfo.innerHTML` brings into the course
  panel; the hosting page holds none of its own, and the two containers lie side
  by side.
* What the script leaves to the hosting page and to the browser is the `Page` of a
  client: the kind of text control `userInput` is, the document order of the two
  containers, and the HTML parser.
-/

namespace ChatClient

/-! ## JavaScript values -/

/-- Characters the ToString of a number is made of: digits, sign, point, exponent
marker, and the letters of `Infinity` and `NaN`. -/
def numberChar (c : Char) : Bool :=
  c.isAlphanum || c == '+' || c == '-' || c == '.'

/-- A number, as far as the script can tell numbers apart: whether it is falsy
(zero) and what its ToString is. -/
structure JsNumber where
  isZero : Bool
  text : String
  text_plain : text.data.all numberChar = true
  deriving DecidableEq

/-- A JavaScript value as it can come out of `res.json()`, plus `undefined`. -/
inductive JsVal where
  | undefined
  | null
  | bool (b : Bool)
  | num (n : JsNumber)
  | str (s : String)
  /-- An array of strings. -/
  | arr (xs : List String)
  /-- A nested object without a property `toString` or `valueOf` of its own: its
  ToString is the inherited one. -/
  | obj
  deriving DecidableEq

/-- Property map of a parsed object: `data.k` is `data k`, `undefined` when absent. -/
abbrev JsObj := String → JsVal

/-- The test `if (v)`: ToBoolean. -/
def JsVal.truthy : JsVal → Bool
  | .undefined => false
  | .null => false
  | .bool b => b
  | .num n => !n.isZero
  | .str s => s != ""
  | .arr _ => true
  | .obj => true

/-- ToString, as applied by a template literal `${v}`. -/
def JsVal.toStr : JsVal → String
  | .undefined => "undefined"
  | .null => "null"
  | .bool b => if b then "true" else "false"
  | .num n => n.text
  | .str s => s
  | .arr xs => ",".intercalate xs
  | .obj => "[object Object]"

/-- Conversion done by the setter of `textContent` (a nullable DOMString):
`null` and `undefined` give the empty string, anything else its ToString. -/
def JsVal.domString : JsVal → String
  | .undefined => ""
  | .null => ""
  | v => v.toStr

/-- Code points removed by `String.prototype.trim`: WhiteSpace and LineTerminator. -/
def isJsWhiteSpace (c : Char) : Bool :=
  let n := c.toNat
  n == 0x09 || n == 0x0A || n == 0x0B || n == 0x0C || n == 0x0D || n == 0x20 ||
  n == 0xA0 || n == 0x1680 || (0x2000 ≤ n && n ≤ 0x200A) || n == 0x2028 ||
  n == 0x2029 || n == 0x202F || n == 0x205F || n == 0x3000 || n == 0xFEFF

/-- The method `trim()` on lists of characters. -/
def trimChars (cs : List Char) : List Char :=
  ((cs.dropWhile isJsWhiteSpace).reverse.dropWhile isJsWhiteSpace).reverse

/-- The method `String.prototype.trim`. -/
def jsTrim (s : String) : String :=
  String.mk (trimChars s.data)

/-! ## Text controls and the hosting page -/

/-- The line feed. -/
def lf : Char := Char.ofNat 10

/-- The carriage return. -/
def cr : Char := Char.ofNat 13

/-- Newline normalisation with the memory of whether the previous character was a
carriage return: a carriage return becomes a line feed, and a line feed right
after a carriage return is dropped. -/
def normalizeNewlinesAux (afterCR : Bool) : List Char → List Char
  | [] => []
  | c :: cs =>
    if c = cr then lf :: normalizeNewlinesAux true cs
    else if c = lf ∧ afterCR = true then normalizeNewlinesAux false cs
    else c :: normalizeNewlinesAux false cs

/-- Newline normalisation: every CRLF pair and every other carriage return becomes
one line feed. -/
def normalizeNewlines (cs : List Char) : List Char :=
  normalizeNewlinesAux false cs

/-- The kind of text control `userInput` is. -/
inductive FieldKind where
  /-- An `input` of type text, search, tel or password. -/
  | singleLine
  /-- A `textarea`. -/
  | multiLine
  deriving DecidableEq

/-- What `userInput.value` reads after `userInput.value = v`: a single-line input
strips line feeds and carriage returns from the value, a `textarea` hands the
value out with its newlines normalised. -/
def FieldKind.store : FieldKind → String → String
  | .singleLine, v => String.mk (v.data.filter (fun c => !(c == lf || c == cr)))
  | .multiLine, v => String.mk (normalizeNewlines v.data)

/-- What the script takes from the hosting page and the browser. -/
structure Page where
  /-- The kind of control the element `userInput` is. -/
  inputKind : FieldKind
  /-- Whether `courseInfo` comes before `chatHistory` in document order. -/
  panelFirst : Bool
  /-- The HTML parser, as far as the script depends on it: the number of elements
  with id `loadingIndicator`, not counting those nested in another one, in the
  fragment built from a markup assigned to `courseInfo.innerHTML`. -/
  loadingRoots : String → Nat

/-! ## Client state -/

/-- A child of the transcript element `chatHistory`. -/
inductive Node where
  /-- A `div` with class `message <type>` and the given text content. -/
  | message (type : String) (content : String)
  /-- The `div#loadingIndicator.loading` holding a spinner and a `span` with the text. -/
  | loading (text : String)
  deriving DecidableEq

/-- A button of `optionsContainer`: its label and the option captured by its
click handler. -/
structure OptionButton where
  textContent : String
  option : String
  deriving DecidableEq

/-- A request handed to `fetch`. -/
inductive Request where
  /-- Request `POST /api/start_session`, no body. -/
  | startSession
  /-- Request `POST /api/interact` carrying `session_id` and `user_input` as its JSON body. -/
  | interact (session_id : JsVal) (user_input : String)
  /-- Request `POST /api/generate_course/<sessionId>`, no body. -/
  | generateCourse (session : String)
  deriving DecidableEq

/-- Module variables, the DOM elements the script holds, and the request log. -/
structure Client where
  sessionId : JsVal
  isProcessing : Bool
  downloadUrl : JsVal
  /-- Children of `chatHistory`. -/
  chatHistory : List Node
  /-- The property `userInput.value`. -/
  userInput : String
  /-- Whether `userInput` received focus from the script last. -/
  inputFocused : Bool
  /-- The property `sendBtn.disabled`. -/
  sendDisabled : Bool
  /-- Children of `optionsContainer`. -/
  optionButtons : List OptionButton
  /-- The property `courseInfo.style.display`. -/
  courseDisplay : String
  /-- Markup last assigned to `courseInfo.innerHTML`. -/
  courseHTML : String
  /-- Elements with id `loadingIndicator` now in the course panel, not counting
  those nested in another one. -/
  panelLoading : Nat
  /-- Requests issued so far, oldest first. -/
  requests : List Request
  /-- The page and browser the script runs in; no function changes it. -/
  page : Page

/-- A page with a single-line input and the transcript before the course panel.
Its parser reading is the one of markup that brings no element with id
`loadingIndicator`. -/
def Page.plain : Page :=
  { inputKind := .singleLine, panelFirst := false, loadingRoots := fun _ => 0 }

/-- State of the module when the script has just been evaluated, over a page whose
elements are empty. -/
def Client.initial : Client :=
  { sessionId := .null, isProcessing := false, downloadUrl := .null,
    chatHistory := [], userInput := "", inputFocused := false, sendDisabled := false,
    optionButtons := [], courseDisplay := "", courseHTML := "", panelLoading := 0,
    requests := [], page := Page.plain }

/-- What the two awaits of a request (`fetch`, then `res.json()`) can deliver. -/
inductive Outcome where
  /-- The promise of `fetch` rejects. -/
  | rejected
  /-- The promise of `res.json()` rejects: the body is not JSON. -/
  | parseFailure
  /-- The body parses to `null`; reading a property of it throws. -/
  | parsedNull
  /-- The body parses to any other value, seen through its property map. -/
  | parsed (data : JsObj)

/-! ## Synchronous functions -/

/-- The function `addMessage(type, content)`. -/
def addMessage (type content : String) (s : Client) : Client :=
  { s with chatHistory := s.chatHistory ++ [Node.message type content] }

/-- The function `showOptions(options)` on an array. -/
def showOptions (options : List String) (s : Client) : Client :=
  let s := { s with optionButtons := [] }
  options.foldl
    (fun s option =>
      let btn : OptionButton := { textContent := option, option := option }
      { s with optionButtons := s.optionButtons ++ [btn] })
    s

/-- The function `showLoading(text)`. -/
def showLoading (text : String) (s : Client) : Client :=
  { s with chatHistory := s.chatHistory ++ [Node.loading text] }

/-- Whether a node carries the id `loadingIndicator`. -/
def Node.isLoading : Node → Bool
  | .loading _ => true
  | .message _ _ => false

/-- Removal of the first node of the transcript carrying the id. -/
def removeFirstLoading : List Node → List Node
  | [] => []
  | n :: ns => if n.isLoading then ns else n :: removeFirstLoading ns

/-- Where the element returned by `document.getElementById('loadingIndicator')`
lies. -/
inductive LoadingSearch where
  /-- No element of the document carries the id: the call returns `null`. -/
  | absent
  /-- The first element with the id is a placeholder of the transcript. -/
  | inHistory
  /-- The first element with the id lies in the course panel. -/
  | inPanel
  deriving DecidableEq

/-- The call `document.getElementById('loadingIndicator')`: the first element of
the document, in document order, that carries the id. -/
def findLoading (s : Client) : LoadingSearch :=
  let inHistory := s.chatHistory.any Node.isLoading
  let inPanel := decide (0 < s.panelLoading)
  if inPanel && (s.page.panelFirst || !inHistory) then .inPanel
  else if inHistory then .inHistory
  else .absent

/-- The function `removeLoading()`. An element found in the course panel is the
outermost of its kind, so its removal takes one off `panelLoading`. -/
def removeLoading (s : Client) : Client :=
  match findLoading s with
  | .absent => s
  | .inHistory => { s with chatHistory := removeFirstLoading s.chatHistory }
  | .inPanel => { s with panelLoading := s.panelLoading - 1 }

/-- The template literal of `showCourseInfo` with its three interpolations. -/
def courseMarkup (title count url : String) : String :=
  "\n        <h3>课程生成成功</h3>\n        <p><strong>课程标题:</strong> " ++
  title ++
  "</p>\n        <p><strong>章节数量:</strong> " ++
  count ++
  "</p>\n        <a href=\"" ++
  url ++
  "\" class=\"download-btn\" target=\"_blank\">下载课程包</a>\n    "

/-- The function `showCourseInfo(data)`. The assignment to `innerHTML` replaces the
children of the panel by what the parser builds from the markup. -/
def showCourseInfo (data : JsObj) (s : Client) : Client :=
  let s := { s with courseDisplay := "block" }
  let html := courseMarkup (data "course_title").toStr (data "chapter_count").toStr
    (data "download_url").toStr
  { s with courseHTML := html, panelLoading := s.page.loadingRoots html }

/-! ## Asynchronous functions -/

/-- Body of `startSession` up to the first `await`: the call of `fetch`. -/
def startSessionBegin (s : Client) : Client :=
  { s with requests := s.requests ++ [Request.startSession] }

/-- Continuation of `startSession` once the request has its outcome. -/
def startSessionResume (o : Outcome) (s : Client) : Client :=
  match o with
  | .parsed data =>
    let s := { s with sessionId := data "session_id" }
    let s := addMessage "consultant" (data "message").domString s
    let s := addMessage "consultant" (data "next_prompt").domString s
    { s with inputFocused := true }
  | _ => addMessage "consultant" "系统错误，请刷新页面重试。" s

/-- A whole run of `startSession()` with nothing interleaved. -/
def startSession (o : Outcome) (s : Client) : Client :=
  startSessionResume o (startSessionBegin s)

/-- The guard `if (isProcessing || !userInput.value.trim()) return;`. -/
def sendMessageReturnsEarly (s : Client) : Bool :=
  s.isProcessing || jsTrim s.userInput == ""

/-- Body of `sendMessage` past its guard, up to the first `await`. -/
def sendMessageBegin (s : Client) : Client :=
  let message := jsTrim s.userInput
  let s := { s with userInput := "" }
  let s := addMessage "user" message s
  let s := { s with optionButtons := [] }
  let s := { s with isProcessing := true }
  let s := { s with sendDisabled := true }
  { s with requests := s.requests ++ [Request.interact s.sessionId message] }

/-- The `try` block of `sendMessage` after the awaits: the state it reaches and
whether it left by an exception. -/
def sendMessageTry (o : Outcome) (s : Client) : Client × Bool :=
  match o with
  | .rejected => (s, true)
  | .parseFailure => (s, true)
  | .parsedNull => (s, true)
  | .parsed data =>
    let s := if (data "message").truthy
      then addMessage "consultant" (data "message").domString s else s
    let s := if (data "next_prompt").truthy
      then addMessage "consultant" (data "next_prompt").domString s else s
    -- a truthy `data.options` that is no array has no `forEach`: `showOptions`
    -- empties the container and then throws a TypeError
    let r : Client × Bool :=
      if (data "options").truthy then
        match data "options" with
        | .arr xs => (showOptions xs s, false)
        | _ => ({ s with optionButtons := [] }, true)
      else (s, false)
    match r with
    | (s, true) => (s, true)
    | (s, false) =>
      let s := if (data "course_title").truthy then showCourseInfo data s else s
      let s := if (data "download_url").truthy
        then { s with downloadUrl := data "download_url" } else s
      let s := if (data "error").truthy
        then addMessage "consultant" (data "error").domString s else s
      (s, false)

/-- Continuation of `sendMessage`: `try`, `catch`, `finally`. -/
def sendMessageResume (o : Outcome) (s : Client) : Client :=
  let (s, threw) := sendMessageTry o s
  let s := if threw then addMessage "consultant" "系统错误，请重试。" s else s
  let s := { s with isProcessing := false }
  let s := { s with sendDisabled := false }
  { s with inputFocused := true }

/-- A whole run of `sendMessage()` with nothing interleaved. -/
def sendMessage (o : Outcome) (s : Client) : Client :=
  if sendMessageReturnsEarly s then s
  else sendMessageResume o (sendMessageBegin s)

/-- Body of `generateCourse` up to the first `await`. -/
def generateCourseBegin (s : Client) : Client :=
  { s with requests := s.requests ++ [Request.generateCourse s.sessionId.toStr] }

/-- The `try` block of `generateCourse` after the awaits. -/
def generateCourseTry (o : Outcome) (s : Client) : Client × Bool :=
  match o with
  | .rejected => (s, true)
  | .parseFailure => (s, true)
  | .parsedNull => (removeLoading s, true)
  | .parsed data =>
    let s := removeLoading s
    let s := if (data "message").truthy
      then addMessage "consultant" (data "message").domString s else s
    let s := if (data "course_title").truthy then showCourseInfo data s else s
    let s := if (data "download_url").truthy
      then { s with downloadUrl := data "download_url" } else s
    (s, false)

/-- Continuation of `generateCourse`: `try`, `catch`, `finally`. -/
def generateCourseResume (o : Outcome) (s : Client) : Client :=
  let (s, threw) := generateCourseTry o s
  let s := if threw
    then addMessage "consultant" "生成课程失败，请重试。" (removeLoading s) else s
  let s := { s with isProcessing := false }
  { s with sendDisabled := false }

/-- A whole run of `generateCourse()` with nothing interleaved. -/
def generateCourse (o : Outcome) (s : Client) : Client :=
  generateCourseResume o (generateCourseBegin s)

/-- The click handler installed by `showOptions` on the `k`-th button: it assigns
the captured option to `userInput.value` and calls `sendMessage()`, which runs up to
its first `await`. The second component tells whether a request went out. -/
def clickOption (k : Nat) (s : Client) : Client × Bool :=
  match s.optionButtons.get? k with
  | none => (s, false)
  | some btn =>
    let s := { s with userInput := s.page.inputKind.store btn.option }
    if sendMessageReturnsEarly s then (s, false) else (sendMessageBegin s, true)

/-! ## Response bodies of the HTTP interface -/

/-- Body answering `POST /api/start_session`: three strings. -/
structure StartResponse where
  session_id : String
  message : String
  next_prompt : String
  deriving DecidableEq

/-- The parsed object of a session-creation body. -/
def StartResponse.toObj (r : StartResponse) : JsObj := fun k =>
  if k = "session_id" then .str r.session_id
  else if k = "message" then .str r.message
  else if k = "next_prompt" then .str r.next_prompt
  else .undefined

/-- Body answering `POST /api/interact`: any subset of the seven fields, strings
but for the array `options` and the number `chapter_count`. -/
structure InteractResponse where
  message : Option String
  next_prompt : Option String
  options : Option (List String)
  course_title : Option String
  chapter_count : Option JsNumber
  download_url : Option String
  error : Option String
  deriving DecidableEq

/-- A field that may be absent, as the value read from the parsed object. -/
def optField {α : Type} (f : α → JsVal) : Option α → JsVal
  | none => .undefined
  | some a => f a

/-- The parsed object of an interaction body. -/
def InteractResponse.toObj (r : InteractResponse) : JsObj := fun k =>
  if k = "message" then optField .str r.message
  else if k = "next_prompt" then optField .str r.next_prompt
  else if k = "options" then optField .arr r.options
  else if k = "course_title" then optField .str r.course_title
  else if k = "chapter_count" then optField .num r.chapter_count
  else if k = "download_url" then optField .str r.download_url
  else if k = "error" then optField .str r.error
  else .undefined

/-- Transcript entries a string field of a response gives rise to: one consultant
message when the field is present and non-empty, none otherwise. -/
def consultantEntry : Option String → List Node
  | some t => if t = "" then [] else [Node.message "consultant" t]
  | none => []

/-! ## Interleaved executions -/

/-- A client together with the number of requests of each kind that were issued
and have not completed yet. -/
structure Sys where
  client : Client
  pendingStart : Nat
  pendingSend : Nat
  pendingGenerate : Nat

/-- The freshly loaded page: no request in flight. -/
def Sys.initial : Sys :=
  { client := Client.initial, pendingStart := 0, pendingSend := 0, pendingGenerate := 0 }

/-- What can happen to the page: the user edits the field or clicks an option, a
function of the script is called, or a pending request completes and the
continuation of its `async` function runs. -/
inductive Event where
  | input (v : String)
  | optionClick (k : Nat)
  | startSessionCall
  | startSessionDone (o : Outcome)
  | sendMessageCall
  | sendMessageDone (o : Outcome)
  | generateCourseCall
  | generateCourseDone (o : Outcome)
  | addMessage (type content : String)
  | showOptions (options : List String)
  | showLoading (text : String)
  | removeLoading
  | showCourseInfo (data : JsObj)

/-- One event. A completion is possible only while a request of its kind is in
flight. -/
def step (e : Event) (σ : Sys) : Option Sys :=
  match e with
  | .input v => some { σ with client := { σ.client with userInput := v } }
  | .optionClick k =>
    let (c, sent) := clickOption k σ.client
    some { σ with client := c, pendingSend := if sent then σ.pendingSend + 1 else σ.pendingSend }
  | .startSessionCall =>
    some { σ with client := startSessionBegin σ.client, pendingStart := σ.pendingStart + 1 }
  | .startSessionDone o =>
    if 0 < σ.pendingStart then
      some { σ with client := startSessionResume o σ.client, pendingStart := σ.pendingStart - 1 }
    else none
  | .sendMessageCall =>
    if sendMessageReturnsEarly σ.client then some σ
    else some { σ with client := sendMessageBegin σ.client, pendingSend := σ.pendingSend + 1 }
  | .sendMessageDone o =>
    if 0 < σ.pendingSend then
      some { σ with client := sendMessageResume o σ.client, pendingSend := σ.pendingSend - 1 }
    else none
  | .generateCourseCall =>
    some { σ with client := generateCourseBegin σ.client,
                  pendingGenerate := σ.pendingGenerate + 1 }
  | .generateCourseDone o =>
    if 0 < σ.pendingGenerate then
      some { σ with client := generateCourseResume o σ.client,
                    pendingGenerate := σ.pendingGenerate - 1 }
    else none
  | .addMessage type content => some { σ with client := addMessage type content σ.client }
  | .showOptions options => some { σ with client := showOptions options σ.client }
  | .showLoading text => some { σ with client := showLoading text σ.client }
  | .removeLoading => some { σ with client := removeLoading σ.client }
  | .showCourseInfo data => some { σ with client := showCourseInfo data σ.client }

/-- Execution of a sequence of events each of which the caller discipline `allowed`
admits in the state it meets. -/
def runWhere (allowed : Event → Sys → Bool) : List Event → Sys → Option Sys
  | [], σ => some σ
  | e :: es, σ => if allowed e σ then (step e σ).bind (runWhere allowed es) else none

/-- Execution of an arbitrary sequence of events. -/
def run (es : List Event) (σ : Sys) : Option Sys :=
  runWhere (fun _ _ => true) es σ

/-- Number of loading placeholders in the transcript. -/
def loadingCount (s : Client) : Nat :=
  s.chatHistory.countP Node.isLoading

/-- Caller discipline under which `showLoading` is called only while the transcript
holds no placeholder. -/
def showLoadingWhenAbsent (e : Event) (σ : Sys) : Bool :=
  match e with
  | .showLoading _ => loadingCount σ.client == 0
  | _ => true

/-- Caller discipline under which no `generateCourse` request completes. -/
def noGenerateCourseDone (e : Event) (_σ : Sys) : Bool :=
  match e with
  | .generateCourseDone _ => false
  | _ => true


/-! ## Named character references -/

/-- Names of the named character references that start with the letter A. -/
def entityNamesUpperA : List String :=
  ["AElig", "AElig;", "AMP", "AMP;", "Aacute", "Aacute;", "Abreve;", "Acirc", "Acirc;", "Acy;",
   "Afr;", "Agrave", "Agrave;", "Alpha;", "Amacr;", "And;", "Aogon;", "Aopf;", "ApplyFunction;",
   "Aring", "Aring;", "Ascr;", "Assign;", "Atilde", "Atilde;", "Auml", "Auml;"]

/-- Names of the named character references that start with the letter B. -/
def entityNamesUpperB : List String :=
  ["Backslash;", "Barv;", "Barwed;", "Bcy;", "Because;", "Bernoullis;", "Beta;", "Bfr;",
   "Bopf;", "Breve;", "Bscr;", "Bumpeq;"]

/-- Names of the named character references that start with the letter C. -/
def entityNamesUpperC : List String :=
  ["CHcy;", "COPY", "COPY;", "Cacute;", "Cap;", "CapitalDifferentialD;", "Cayleys;", "Ccaron;",
   "Ccedil", "Ccedil;", "Ccirc;", "Cconint;", "Cdot;", "Cedilla;", "CenterDot;", "Cfr;", "Chi;",
   "CircleDot;", "CircleMinus;", "CirclePlus;", "CircleTimes;", "ClockwiseContourIntegral;",
   "CloseCurlyDoubleQuote;", "CloseCurlyQuote;", "Colon;", "Colone;", "Congruent;", "Conint;",
   "ContourIntegral;", "Copf;", "Coproduct;", "CounterClockwiseContourIntegral;", "Cross;",
   "Cscr;", "Cup;", "CupCap;"]

/-- Names of the named character references that start with the letter D. -/
def entityNamesUpperD : List String :=
  ["DD;", "DDotrahd;", "DJcy;", "DScy;", "DZcy;", "Dagger;", "Darr;", "Dashv;", "Dcaron;",
   "Dcy;", "Del;", "Delta;", "Dfr;", "DiacriticalAcute;", "DiacriticalDot;",
   "DiacriticalDoubleAcute;", "DiacriticalGrave;", "DiacriticalTilde;", "Diamond;",
   "DifferentialD;", "Dopf;", "Dot;", "DotDot;", "DotEqual;", "DoubleContourIntegral;",
   "DoubleDot;", "DoubleDownArrow;", "DoubleLeftArrow;", "DoubleLeftRightArrow;",
   "DoubleLeftTee;", "DoubleLongLeftArrow;", "DoubleLongLeftRightArrow;",
   "DoubleLongRightArrow;", "DoubleRightArrow;", "DoubleRightTee;", "DoubleUpArrow;",
   "DoubleUpDownArrow;", "DoubleVerticalBar;", "DownArrow;", "DownArrowBar;",
   "DownArrowUpArrow;", "DownBreve;", "DownLeftRightVector;", "DownLeftTeeVector;",
   "DownLeftVector;", "DownLeftVectorBar;", "DownRightTeeVector;", "DownRightVector;",
   "DownRightVectorBar;", "DownTee;", "DownTeeArrow;", "Downarrow;", "Dscr;", "Dstrok;"]

/-- Names of the named character references that start with the letter E. -/
def entityNamesUpperE : List String :=
  ["ENG;", "ETH", "ETH;", "Eacute", "Eacute;", "Ecaron;", "Ecirc", "Ecirc;", "Ecy;", "Edot;",
   "Efr;", "Egrave", "Egrave;", "Element;", "Emacr;", "EmptySmallSquare;",
   "EmptyVerySmallSquare;", "Eogon;", "Eopf;", "Epsilon;", "Equal;", "EqualTilde;",
   "Equilibrium;", "Escr;", "Esim;", "Eta;", "Euml", "Euml;", "Exists;", "ExponentialE;"]

/-- Names of the named character references that start with the letter F. -/
def entityNamesUpperF : List String :=
  ["Fcy;", "Ffr;", "FilledSmallSquare;", "FilledVerySmallSquare;", "Fopf;", "ForAll;",
   "Fouriertrf;", "Fscr;"]

/-- Names of the named character references that start with the letter G. -/
def entityNamesUpperG : List String :=
  ["GJcy;", "GT", "GT;", "Gamma;", "Gammad;", "Gbreve;", "Gcedil;", "Gcirc;", "Gcy;", "Gdot;",
   "Gfr;", "Gg;", "Gopf;", "GreaterEqual;", "GreaterEqualLess;", "GreaterFullEqual;",
   "GreaterGreater;", "GreaterLess;", "GreaterSlantEqual;", "GreaterTilde;", "Gscr;", "Gt;"]

/-- Names of the named character references that start with the letter H. -/
def entityNamesUpperH : List String :=
  ["HARDcy;", "Hacek;", "Hat;", "Hcirc;", "Hfr;", "HilbertSpace;", "Hopf;", "HorizontalLine;",
   "Hscr;", "Hstrok;", "HumpDownHump;", "HumpEqual;"]

/-- Names of the named character references that start with the letter I. -/
def entityNamesUpperI : List String :=
  ["IEcy;", "IJlig;", "IOcy;", "Iacute", "Iacute;", "Icirc", "Icirc;", "Icy;", "Idot;", "Ifr;",
   "Igrave", "Igrave;", "Im;", "Imacr;", "ImaginaryI;", "Implies;", "Int;", "Integral;",
   "Intersection;", "InvisibleComma;", "InvisibleTimes;", "Iogon;", "Iopf;", "Iota;", "Iscr;",
   "Itilde;", "Iukcy;", "Iuml", "Iuml;"]

/-- Names of the named character references that start with the letter J. -/
def entityNamesUpperJ : List String :=
  ["Jcirc;", "Jcy;", "Jfr;", "Jopf;", "Jscr;", "Jsercy;", "Jukcy;"]

/-- Names of the named character references that start with the letter K. -/
def entityNamesUpperK : List String :=
  ["KHcy;", "KJcy;", "Kappa;", "Kcedil;", "Kcy;", "Kfr;", "Kopf;", "Kscr;"]

/-- Names of the named character references that start with the letter L. -/
def entityNamesUpperL : List String :=
  ["LJcy;", "LT", "LT;", "Lacute;", "Lambda;", "Lang;", "Laplacetrf;", "Larr;", "Lcaron;",
   "Lcedil;", "Lcy;", "LeftAngleBracket;", "LeftArrow;", "LeftArrowBar;",
   "LeftArrowRightArrow;", "LeftCeiling;", "LeftDoubleBracket;", "LeftDownTeeVector;",
   "LeftDownVector;", "LeftDownVectorBar;", "LeftFloor;", "LeftRightArrow;", "LeftRightVector;",
   "LeftTee;", "LeftTeeArrow;", "LeftTeeVector;", "LeftTriangle;", "LeftTriangleBar;",
   "LeftTriangleEqual;", "LeftUpDownVector;", "LeftUpTeeVector;", "LeftUpVector;",
   "LeftUpVectorBar;", "LeftVector;", "LeftVectorBar;", "Leftarrow;", "Leftrightarrow;",
   "LessEqualGreater;", "LessFullEqual;", "LessGreater;", "LessLess;", "LessSlantEqual;",
   "LessTilde;", "Lfr;", "Ll;", "Lleftarrow;", "Lmidot;", "LongLeftArrow;",
   "LongLeftRightArrow;", "LongRightArrow;", "Longleftarrow;", "Longleftrightarrow;",
   "Longrightarrow;", "Lopf;", "LowerLeftArrow;", "LowerRightArrow;", "Lscr;", "Lsh;",
   "Lstrok;", "Lt;"]

/-- Names of the named character references that start with the letter M. -/
def entityNamesUpperM : List String :=
  ["Map;", "Mcy;", "MediumSpace;", "Mellintrf;", "Mfr;", "MinusPlus;", "Mopf;", "Mscr;", "Mu;"]

/-- Names of the named character references that start with the letter N. -/
def entityNamesUpperN : List String :=
  ["NJcy;", "Nacute;", "Ncaron;", "Ncedil;", "Ncy;", "NegativeMediumSpace;",
   "NegativeThickSpace;", "NegativeThinSpace;", "NegativeVeryThinSpace;",
   "NestedGreaterGreater;", "NestedLessLess;", "NewLine;", "Nfr;", "NoBreak;",
   "NonBreakingSpace;", "Nopf;", "Not;", "NotCongruent;", "NotCupCap;", "NotDoubleVerticalBar;",
   "NotElement;", "NotEqual;", "NotEqualTilde;", "NotExists;", "NotGreater;",
   "NotGreaterEqual;", "NotGreaterFullEqual;", "NotGreaterGreater;", "NotGreaterLess;",
   "NotGreaterSlantEqual;", "NotGreaterTilde;", "NotHumpDownHump;", "NotHumpEqual;",
   "NotLeftTriangle;", "NotLeftTriangleBar;", "NotLeftTriangleEqual;", "NotLess;",
   "NotLessEqual;", "NotLessGreater;", "NotLessLess;", "NotLessSlantEqual;", "NotLessTilde;",
   "NotNestedGreaterGreater;", "NotNestedLessLess;", "NotPrecedes;", "NotPrecedesEqual;",
   "NotPrecedesSlantEqual;", "NotReverseElement;", "NotRightTriangle;", "NotRightTriangleBar;",
   "NotRightTriangleEqual;", "NotSquareSubset;", "NotSquareSubsetEqual;", "NotSquareSuperset;",
   "NotSquareSupersetEqual;", "NotSubset;", "NotSubsetEqual;", "NotSucceeds;",
   "NotSucceedsEqual;", "NotSucceedsSlantEqual;", "NotSucceedsTilde;", "NotSuperset;",
   "NotSupersetEqual;", "NotTilde;", "NotTildeEqual;", "NotTildeFullEqual;", "NotTildeTilde;",
   "NotVerticalBar;", "Nscr;", "Ntilde", "Ntilde;", "Nu;"]

/-- Names of the named character references that start with the letter O. -/
def entityNamesUpperO : List String :=
  ["OElig;", "Oacute", "Oacute;", "Ocirc", "Ocirc;", "Ocy;", "Odblac;", "Ofr;", "Ograve",
   "Ograve;", "Omacr;", "Omega;", "Omicron;", "Oopf;", "OpenCurlyDoubleQuote;",
   "OpenCurlyQuote;", "Or;", "Oscr;", "Oslash", "Oslash;", "Otilde", "Otilde;", "Otimes;",
   "Ouml", "Ouml;", "OverBar;", "OverBrace;", "OverBracket;", "OverParenthesis;"]

/-- Names of the named character references that start with the letter P. -/
def entityNamesUpperP : List String :=
  ["PartialD;", "Pcy;", "Pfr;", "Phi;", "Pi;", "PlusMinus;", "Poincareplane;", "Popf;", "Pr;",
   "Precedes;", "PrecedesEqual;", "PrecedesSlantEqual;", "PrecedesTilde;", "Prime;", "Product;",
   "Proportion;", "Proportional;", "Pscr;", "Psi;"]

/-- Names of the named character references that start with the letter Q. -/
def entityNamesUpperQ : List String :=
  ["QUOT", "QUOT;", "Qfr;", "Qopf;", "Qscr;"]

/-- Names of the named character references that start with the letter R. -/
def entityNamesUpperR : List String :=
  ["RBarr;", "REG", "REG;", "Racute;", "Rang;", "Rarr;", "Rarrtl;", "Rcaron;", "Rcedil;",
   "Rcy;", "Re;", "ReverseElement;", "ReverseEquilibrium;", "ReverseUpEquilibrium;", "Rfr;",
   "Rho;", "RightAngleBracket;", "RightArrow;", "RightArrowBar;", "RightArrowLeftArrow;",
   "RightCeiling;", "RightDoubleBracket;", "RightDownTeeVector;", "RightDownVector;",
   "RightDownVectorBar;", "RightFloor;", "RightTee;", "RightTeeArrow;", "RightTeeVector;",
   "RightTriangle;", "RightTriangleBar;", "RightTriangleEqual;", "RightUpDownVector;",
   "RightUpTeeVector;", "RightUpVector;", "RightUpVectorBar;", "RightVector;",
   "RightVectorBar;", "Rightarrow;", "Ropf;", "RoundImplies;", "Rrightarrow;", "Rscr;", "Rsh;",
   "RuleDelayed;"]

/-- Names of the named character references that start with the letter S. -/
def entityNamesUpperS : List String :=
  ["SHCHcy;", "SHcy;", "SOFTcy;", "Sacute;", "Sc;", "Scaron;", "Scedil;", "Scirc;", "Scy;",
   "Sfr;", "ShortDownArrow;", "ShortLeftArrow;", "ShortRightArrow;", "ShortUpArrow;", "Sigma;",
   "SmallCircle;", "Sopf;", "Sqrt;", "Square;", "SquareIntersection;", "SquareSubset;",
   "SquareSubsetEqual;", "SquareSuperset;", "SquareSupersetEqual;", "SquareUnion;", "Sscr;",
   "Star;", "Sub;", "Subset;", "SubsetEqual;", "Succeeds;", "SucceedsEqual;",
   "SucceedsSlantEqual;", "SucceedsTilde;", "SuchThat;", "Sum;", "Sup;", "Superset;",
   "SupersetEqual;", "Supset;"]

/-- Names of the named character references that start with the letter T. -/
def entityNamesUpperT : List String :=
  ["THORN", "THORN;", "TRADE;", "TSHcy;", "TScy;", "Tab;", "Tau;", "Tcaron;", "Tcedil;", "Tcy;",
   "Tfr;", "Therefore;", "Theta;", "ThickSpace;", "ThinSpace;", "Tilde;", "TildeEqual;",
   "TildeFullEqual;", "TildeTilde;", "Topf;", "TripleDot;", "Tscr;", "Tstrok;"]

/-- Names of the named character references that start with the letter U. -/
def entityNamesUpperU : List String :=
  ["Uacute", "Uacute;", "Uarr;", "Uarrocir;", "Ubrcy;", "Ubreve;", "Ucirc", "Ucirc;", "Ucy;",
   "Udblac;", "Ufr;", "Ugrave", "Ugrave;", "Umacr;", "UnderBar;", "UnderBrace;",
   "UnderBracket;", "UnderParenthesis;", "Union;", "UnionPlus;", "Uogon;", "Uopf;", "UpArrow;",
   "UpArrowBar;", "UpArrowDownArrow;", "UpDownArrow;", "UpEquilibrium;", "UpTee;",
   "UpTeeArrow;", "Uparrow;", "Updownarrow;", "UpperLeftArrow;", "UpperRightArrow;", "Upsi;",
   "Upsilon;", "Uring;", "Uscr;", "Utilde;", "Uuml", "Uuml;"]

/-- Names of the named character references that start with the letter V. -/
def entityNamesUpperV : List String :=
  ["VDash;", "Vbar;", "Vcy;", "Vdash;", "Vdashl;", "Vee;", "Verbar;", "Vert;", "VerticalBar;",
   "VerticalLine;", "VerticalSeparator;", "VerticalTilde;", "VeryThinSpace;", "Vfr;", "Vopf;",
   "Vscr;", "Vvdash;"]

/-- Names of the named character references that start with the letter W. -/
def entityNamesUpperW : List String :=
  ["Wcirc;", "Wedge;", "Wfr;", "Wopf;", "Wscr;"]

/-- Names of the named character references that start with the letter X. -/
def entityNamesUpperX : List String :=
  ["Xfr;", "Xi;", "Xopf;", "Xscr;"]

/-- Names of the named character references that start with the letter Y. -/
def entityNamesUpperY : List String :=
  ["YAcy;", "YIcy;", "YUcy;", "Yacute", "Yacute;", "Ycirc;", "Ycy;", "Yfr;", "Yopf;", "Yscr;",
   "Yuml;"]

/-- Names of the named character references that start with the letter Z. -/
def entityNamesUpperZ : List String :=
  ["ZHcy;", "Zacute;", "Zcaron;", "Zcy;", "Zdot;", "ZeroWidthSpace;", "Zeta;", "Zfr;", "Zopf;",
   "Zscr;"]

/-- Names of the named character references that start with the letter a. -/
def entityNamesLowerA : List String :=
  ["aacute", "aacute;", "abreve;", "ac;", "acE;", "acd;", "acirc", "acirc;", "acute", "acute;",
   "acy;", "aelig", "aelig;", "af;", "afr;", "agrave", "agrave;", "alefsym;", "aleph;",
   "alpha;", "amacr;", "amalg;", "amp", "amp;", "and;", "andand;", "andd;", "andslope;",
   "andv;", "ang;", "ange;", "angle;", "angmsd;", "angmsdaa;", "angmsdab;", "angmsdac;",
   "angmsdad;", "angmsdae;", "angmsdaf;", "angmsdag;", "angmsdah;", "angrt;", "angrtvb;",
   "angrtvbd;", "angsph;", "angst;", "angzarr;", "aogon;", "aopf;", "ap;", "apE;", "apacir;",
   "ape;", "apid;", "apos;", "approx;", "approxeq;", "aring", "aring;", "ascr;", "ast;",
   "asymp;", "asympeq;", "atilde", "atilde;", "auml", "auml;", "awconint;", "awint;"]

/-- Names of the named character references that start with the letter b. -/
def entityNamesLowerB : List String :=
  ["bNot;", "backcong;", "backepsilon;", "backprime;", "backsim;", "backsimeq;", "barvee;",
   "barwed;", "barwedge;", "bbrk;", "bbrktbrk;", "bcong;", "bcy;", "bdquo;", "becaus;",
   "because;", "bemptyv;", "bepsi;", "bernou;", "beta;", "beth;", "between;", "bfr;", "bigcap;",
   "bigcirc;", "bigcup;", "bigodot;", "bigoplus;", "bigotimes;", "bigsqcup;", "bigstar;",
   "bigtriangledown;", "bigtriangleup;", "biguplus;", "bigvee;", "bigwedge;", "bkarow;",
   "blacklozenge;", "blacksquare;", "blacktriangle;", "blacktriangledown;",
   "blacktriangleleft;", "blacktriangleright;", "blank;", "blk12;", "blk14;", "blk34;",
   "block;", "bne;", "bnequiv;", "bnot;", "bopf;", "bot;", "bottom;", "bowtie;", "boxDL;",
   "boxDR;", "boxDl;", "boxDr;", "boxH;", "boxHD;", "boxHU;", "boxHd;", "boxHu;", "boxUL;",
   "boxUR;", "boxUl;", "boxUr;", "boxV;", "boxVH;", "boxVL;", "boxVR;", "boxVh;", "boxVl;",
   "boxVr;", "boxbox;", "boxdL;", "boxdR;", "boxdl;", "boxdr;", "boxh;", "boxhD;", "boxhU;",
   "boxhd;", "boxhu;", "boxminus;", "boxplus;", "boxtimes;", "boxuL;", "boxuR;", "boxul;",
   "boxur;", "boxv;", "boxvH;", "boxvL;", "boxvR;", "boxvh;", "boxvl;", "boxvr;", "bprime;",
   "breve;", "brvbar", "brvbar;", "bscr;", "bsemi;", "bsim;", "bsime;", "bsol;", "bsolb;",
   "bsolhsub;", "bull;", "bullet;", "bump;", "bumpE;", "bumpe;", "bumpeq;"]

/-- Names of the named character references that start with the letter c. -/
def entityNamesLowerC : List String :=
  ["cacute;", "cap;", "capand;", "capbrcup;", "capcap;", "capcup;", "capdot;", "caps;",
   "caret;", "caron;", "ccaps;", "ccaron;", "ccedil", "ccedil;", "ccirc;", "ccups;", "ccupssm;",
   "cdot;", "cedil", "cedil;", "cemptyv;", "cent", "cent;", "centerdot;", "cfr;", "chcy;",
   "check;", "checkmark;", "chi;", "cir;", "cirE;", "circ;", "circeq;", "circlearrowleft;",
   "circlearrowright;", "circledR;", "circledS;", "circledast;", "circledcirc;", "circleddash;",
   "cire;", "cirfnint;", "cirmid;", "cirscir;", "clubs;", "clubsuit;", "colon;", "colone;",
   "coloneq;", "comma;", "commat;", "comp;", "compfn;", "complement;", "complexes;", "cong;",
   "congdot;", "conint;", "copf;", "coprod;", "copy", "copy;", "copysr;", "crarr;", "cross;",
   "cscr;", "csub;", "csube;", "csup;", "csupe;", "ctdot;", "cudarrl;", "cudarrr;", "cuepr;",
   "cuesc;", "cularr;", "cularrp;", "cup;", "cupbrcap;", "cupcap;", "cupcup;", "cupdot;",
   "cupor;", "cups;", "curarr;", "curarrm;", "curlyeqprec;", "curlyeqsucc;", "curlyvee;",
   "curlywedge;", "curren", "curren;", "curvearrowleft;", "curvearrowright;", "cuvee;",
   "cuwed;", "cwconint;", "cwint;", "cylcty;"]

/-- Names of the named character references that start with the letter d. -/
def entityNamesLowerD : List String :=
  ["dArr;", "dHar;", "dagger;", "daleth;", "darr;", "dash;", "dashv;", "dbkarow;", "dblac;",
   "dcaron;", "dcy;", "dd;", "ddagger;", "ddarr;", "ddotseq;", "deg", "deg;", "delta;",
   "demptyv;", "dfisht;", "dfr;", "dharl;", "dharr;", "diam;", "diamond;", "diamondsuit;",
   "diams;", "die;", "digamma;", "disin;", "div;", "divide", "divide;", "divideontimes;",
   "divonx;", "djcy;", "dlcorn;", "dlcrop;", "dollar;", "dopf;", "dot;", "doteq;", "doteqdot;",
   "dotminus;", "dotplus;", "dotsquare;", "doublebarwedge;", "downarrow;", "downdownarrows;",
   "downharpoonleft;", "downharpoonright;", "drbkarow;", "drcorn;", "drcrop;", "dscr;", "dscy;",
   "dsol;", "dstrok;", "dtdot;", "dtri;", "dtrif;", "duarr;", "duhar;", "dwangle;", "dzcy;",
   "dzigrarr;"]

/-- Names of the named character references that start with the letter e. -/
def entityNamesLowerE : List String :=
  ["eDDot;", "eDot;", "eacute", "eacute;", "easter;", "ecaron;", "ecir;", "ecirc", "ecirc;",
   "ecolon;", "ecy;", "edot;", "ee;", "efDot;", "efr;", "eg;", "egrave", "egrave;", "egs;",
   "egsdot;", "el;", "elinters;", "ell;", "els;", "elsdot;", "emacr;", "empty;", "emptyset;",
   "emptyv;", "emsp13;", "emsp14;", "emsp;", "eng;", "ensp;", "eogon;", "eopf;", "epar;",
   "eparsl;", "eplus;", "epsi;", "epsilon;", "epsiv;", "eqcirc;", "eqcolon;", "eqsim;",
   "eqslantgtr;", "eqslantless;", "equals;", "equest;", "equiv;", "equivDD;", "eqvparsl;",
   "erDot;", "erarr;", "escr;", "esdot;", "esim;", "eta;", "eth", "eth;", "euml", "euml;",
   "euro;", "excl;", "exist;", "expectation;", "exponentiale;"]

/-- Names of the named character references that start with the letter f. -/
def entityNamesLowerF : List String :=
  ["fallingdotseq;", "fcy;", "female;", "ffilig;", "fflig;", "ffllig;", "ffr;", "filig;",
   "fjlig;", "flat;", "fllig;", "fltns;", "fnof;", "fopf;", "forall;", "fork;", "forkv;",
   "fpartint;", "frac12", "frac12;", "frac13;", "frac14", "frac14;", "frac15;", "frac16;",
   "frac18;", "frac23;", "frac25;", "frac34", "frac34;", "frac35;", "frac38;", "frac45;",
   "frac56;", "frac58;", "frac78;", "frasl;", "frown;", "fscr;"]

/-- Names of the named character references that start with the letter g. -/
def entityNamesLowerG : List String :=
  ["gE;", "gEl;", "gacute;", "gamma;", "gammad;", "gap;", "gbreve;", "gcirc;", "gcy;", "gdot;",
   "ge;", "gel;", "geq;", "geqq;", "geqslant;", "ges;", "gescc;", "gesdot;", "gesdoto;",
   "gesdotol;", "gesl;", "gesles;", "gfr;", "gg;", "ggg;", "gimel;", "gjcy;", "gl;", "glE;",
   "gla;", "glj;", "gnE;", "gnap;", "gnapprox;", "gne;", "gneq;", "gneqq;", "gnsim;", "gopf;",
   "grave;", "gscr;", "gsim;", "gsime;", "gsiml;", "gt", "gt;", "gtcc;", "gtcir;", "gtdot;",
   "gtlPar;", "gtquest;", "gtrapprox;", "gtrarr;", "gtrdot;", "gtreqless;", "gtreqqless;",
   "gtrless;", "gtrsim;", "gvertneqq;", "gvnE;"]

/-- Names of the named character references that start with the letter h. -/
def entityNamesLowerH : List String :=
  ["hArr;", "hairsp;", "half;", "hamilt;", "hardcy;", "harr;", "harrcir;", "harrw;", "hbar;",
   "hcirc;", "hearts;", "heartsuit;", "hellip;", "hercon;", "hfr;", "hksearow;", "hkswarow;",
   "hoarr;", "homtht;", "hookleftarrow;", "hookrightarrow;", "hopf;", "horbar;", "hscr;",
   "hslash;", "hstrok;", "hybull;", "hyphen;"]

/-- Names of the named character references that start with the letter i. -/
def entityNamesLowerI : List String :=
  ["iacute", "iacute;", "ic;", "icirc", "icirc;", "icy;", "iecy;", "iexcl", "iexcl;", "iff;",
   "ifr;", "igrave", "igrave;", "ii;", "iiiint;", "iiint;", "iinfin;", "iiota;", "ijlig;",
   "imacr;", "image;", "imagline;", "imagpart;", "imath;", "imof;", "imped;", "in;", "incare;",
   "infin;", "infintie;", "inodot;", "int;", "intcal;", "integers;", "intercal;", "intlarhk;",
   "intprod;", "iocy;", "iogon;", "iopf;", "iota;", "iprod;", "iquest", "iquest;", "iscr;",
   "isin;", "isinE;", "isindot;", "isins;", "isinsv;", "isinv;", "it;", "itilde;", "iukcy;",
   "iuml", "iuml;"]

/-- Names of the named character references that start with the letter j. -/
def entityNamesLowerJ : List String :=
  ["jcirc;", "jcy;", "jfr;", "jmath;", "jopf;", "jscr;", "jsercy;", "jukcy;"]

/-- Names of the named character references that start with the letter k. -/
def entityNamesLowerK : List String :=
  ["kappa;", "kappav;", "kcedil;", "kcy;", "kfr;", "kgreen;", "khcy;", "kjcy;", "kopf;",
   "kscr;"]

/-- Names of the named character references that start with the letter l. -/
def entityNamesLowerL : List String :=
  ["lAarr;", "lArr;", "lAtail;", "lBarr;", "lE;", "lEg;", "lHar;", "lacute;", "laemptyv;",
   "lagran;", "lambda;", "lang;", "langd;", "langle;", "lap;", "laquo", "laquo;", "larr;",
   "larrb;", "larrbfs;", "larrfs;", "larrhk;", "larrlp;", "larrpl;", "larrsim;", "larrtl;",
   "lat;", "latail;", "late;", "lates;", "lbarr;", "lbbrk;", "lbrace;", "lbrack;", "lbrke;",
   "lbrksld;", "lbrkslu;", "lcaron;", "lcedil;", "lceil;", "lcub;", "lcy;", "ldca;", "ldquo;",
   "ldquor;", "ldrdhar;", "ldrushar;", "ldsh;", "le;", "leftarrow;", "leftarrowtail;",
   "leftharpoondown;", "leftharpoonup;", "leftleftarrows;", "leftrightarrow;",
   "leftrightarrows;", "leftrightharpoons;", "leftrightsquigarrow;", "leftthreetimes;", "leg;",
   "leq;", "leqq;", "leqslant;", "les;", "lescc;", "lesdot;", "lesdoto;", "lesdotor;", "lesg;",
   "lesges;", "lessapprox;", "lessdot;", "lesseqgtr;", "lesseqqgtr;", "lessgtr;", "lesssim;",
   "lfisht;", "lfloor;", "lfr;", "lg;", "lgE;", "lhard;", "lharu;", "lharul;", "lhblk;",
   "ljcy;", "ll;", "llarr;", "llcorner;", "llhard;", "lltri;", "lmidot;", "lmoust;",
   "lmoustache;", "lnE;", "lnap;", "lnapprox;", "lne;", "lneq;", "lneqq;", "lnsim;", "loang;",
   "loarr;", "lobrk;", "longleftarrow;", "longleftrightarrow;", "longmapsto;",
   "longrightarrow;", "looparrowleft;", "looparrowright;", "lopar;", "lopf;", "loplus;",
   "lotimes;", "lowast;", "lowbar;", "loz;", "lozenge;", "lozf;", "lpar;", "lparlt;", "lrarr;",
   "lrcorner;", "lrhar;", "lrhard;", "lrm;", "lrtri;", "lsaquo;", "lscr;", "lsh;", "lsim;",
   "lsime;", "lsimg;", "lsqb;", "lsquo;", "lsquor;", "lstrok;", "lt", "lt;", "ltcc;", "ltcir;",
   "ltdot;", "lthree;", "ltimes;", "ltlarr;", "ltquest;", "ltrPar;", "ltri;", "ltrie;",
   "ltrif;", "lurdshar;", "luruhar;", "lvertneqq;", "lvnE;"]

/-- Names of the named character references that start with the letter m. -/
def entityNamesLowerM : List String :=
  ["mDDot;", "macr", "macr;", "male;", "malt;", "maltese;", "map;", "mapsto;", "mapstodown;",
   "mapstoleft;", "mapstoup;", "marker;", "mcomma;", "mcy;", "mdash;", "measuredangle;", "mfr;",
   "mho;", "micro", "micro;", "mid;", "midast;", "midcir;", "middot", "middot;", "minus;",
   "minusb;", "minusd;", "minusdu;", "mlcp;", "mldr;", "mnplus;", "models;", "mopf;", "mp;",
   "mscr;", "mstpos;", "mu;", "multimap;", "mumap;"]

/-- Names of the named character references that start with the letter n. -/
def entityNamesLowerN : List String :=
  ["nGg;", "nGt;", "nGtv;", "nLeftarrow;", "nLeftrightarrow;", "nLl;", "nLt;", "nLtv;",
   "nRightarrow;", "nVDash;", "nVdash;", "nabla;", "nacute;", "nang;", "nap;", "napE;",
   "napid;", "napos;", "napprox;", "natur;", "natural;", "naturals;", "nbsp", "nbsp;", "nbump;",
   "nbumpe;", "ncap;", "ncaron;", "ncedil;", "ncong;", "ncongdot;", "ncup;", "ncy;", "ndash;",
   "ne;", "neArr;", "nearhk;", "nearr;", "nearrow;", "nedot;", "nequiv;", "nesear;", "nesim;",
   "nexist;", "nexists;", "nfr;", "ngE;", "nge;", "ngeq;", "ngeqq;", "ngeqslant;", "nges;",
   "ngsim;", "ngt;", "ngtr;", "nhArr;", "nharr;", "nhpar;", "ni;", "nis;", "nisd;", "niv;",
   "njcy;", "nlArr;", "nlE;", "nlarr;", "nldr;", "nle;", "nleftarrow;", "nleftrightarrow;",
   "nleq;", "nleqq;", "nleqslant;", "nles;", "nless;", "nlsim;", "nlt;", "nltri;", "nltrie;",
   "nmid;", "nopf;", "not", "not;", "notin;", "notinE;", "notindot;", "notinva;", "notinvb;",
   "notinvc;", "notni;", "notniva;", "notnivb;", "notnivc;", "npar;", "nparallel;", "nparsl;",
   "npart;", "npolint;", "npr;", "nprcue;", "npre;", "nprec;", "npreceq;", "nrArr;", "nrarr;",
   "nrarrc;", "nrarrw;", "nrightarrow;", "nrtri;", "nrtrie;", "nsc;", "nsccue;", "nsce;",
   "nscr;", "nshortmid;", "nshortparallel;", "nsim;", "nsime;", "nsimeq;", "nsmid;", "nspar;",
   "nsqsube;", "nsqsupe;", "nsub;", "nsubE;", "nsube;", "nsubset;", "nsubseteq;", "nsubseteqq;",
   "nsucc;", "nsucceq;", "nsup;", "nsupE;", "nsupe;", "nsupset;", "nsupseteq;", "nsupseteqq;",
   "ntgl;", "ntilde", "ntilde;", "ntlg;", "ntriangleleft;", "ntrianglelefteq;",
   "ntriangleright;", "ntrianglerighteq;", "nu;", "num;", "numero;", "numsp;", "nvDash;",
   "nvHarr;", "nvap;", "nvdash;", "nvge;", "nvgt;", "nvinfin;", "nvlArr;", "nvle;", "nvlt;",
   "nvltrie;", "nvrArr;", "nvrtrie;", "nvsim;", "nwArr;", "nwarhk;", "nwarr;", "nwarrow;",
   "nwnear;"]

/-- Names of the named character references that start with the letter o. -/
def entityNamesLowerO : List String :=
  ["oS;", "oacute", "oacute;", "oast;", "ocir;", "ocirc", "ocirc;", "ocy;", "odash;", "odblac;",
   "odiv;", "odot;", "odsold;", "oelig;", "ofcir;", "ofr;", "ogon;", "ograve", "ograve;",
   "ogt;", "ohbar;", "ohm;", "oint;", "olarr;", "olcir;", "olcross;", "oline;", "olt;",
   "omacr;", "omega;", "omicron;", "omid;", "ominus;", "oopf;", "opar;", "operp;", "oplus;",
   "or;", "orarr;", "ord;", "order;", "orderof;", "ordf", "ordf;", "ordm", "ordm;", "origof;",
   "oror;", "orslope;", "orv;", "oscr;", "oslash", "oslash;", "osol;", "otilde", "otilde;",
   "otimes;", "otimesas;", "ouml", "ouml;", "ovbar;"]

/-- Names of the named character references that start with the letter p. -/
def entityNamesLowerP : List String :=
  ["par;", "para", "para;", "parallel;", "parsim;", "parsl;", "part;", "pcy;", "percnt;",
   "period;", "permil;", "perp;", "pertenk;", "pfr;", "phi;", "phiv;", "phmmat;", "phone;",
   "pi;", "pitchfork;", "piv;", "planck;", "planckh;", "plankv;", "plus;", "plusacir;",
   "plusb;", "pluscir;", "plusdo;", "plusdu;", "pluse;", "plusmn", "plusmn;", "plussim;",
   "plustwo;", "pm;", "pointint;", "popf;", "pound", "pound;", "pr;", "prE;", "prap;", "prcue;",
   "pre;", "prec;", "precapprox;", "preccurlyeq;", "preceq;", "precnapprox;", "precneqq;",
   "precnsim;", "precsim;", "prime;", "primes;", "prnE;", "prnap;", "prnsim;", "prod;",
   "profalar;", "profline;", "profsurf;", "prop;", "propto;", "prsim;", "prurel;", "pscr;",
   "psi;", "puncsp;"]

/-- Names of the named character references that start with the letter q. -/
def entityNamesLowerQ : List String :=
  ["qfr;", "qint;", "qopf;", "qprime;", "qscr;", "quaternions;", "quatint;", "quest;",
   "questeq;", "quot", "quot;"]

/-- Names of the named character references that start with the letter r. -/
def entityNamesLowerR : List String :=
  ["rAarr;", "rArr;", "rAtail;", "rBarr;", "rHar;", "race;", "racute;", "radic;", "raemptyv;",
   "rang;", "rangd;", "range;", "rangle;", "raquo", "raquo;", "rarr;", "rarrap;", "rarrb;",
   "rarrbfs;", "rarrc;", "rarrfs;", "rarrhk;", "rarrlp;", "rarrpl;", "rarrsim;", "rarrtl;",
   "rarrw;", "ratail;", "ratio;", "rationals;", "rbarr;", "rbbrk;", "rbrace;", "rbrack;",
   "rbrke;", "rbrksld;", "rbrkslu;", "rcaron;", "rcedil;", "rceil;", "rcub;", "rcy;", "rdca;",
   "rdldhar;", "rdquo;", "rdquor;", "rdsh;", "real;", "realine;", "realpart;", "reals;",
   "rect;", "reg", "reg;", "rfisht;", "rfloor;", "rfr;", "rhard;", "rharu;", "rharul;", "rho;",
   "rhov;", "rightarrow;", "rightarrowtail;", "rightharpoondown;", "rightharpoonup;",
   "rightleftarrows;", "rightleftharpoons;", "rightrightarrows;", "rightsquigarrow;",
   "rightthreetimes;", "ring;", "risingdotseq;", "rlarr;", "rlhar;", "rlm;", "rmoust;",
   "rmoustache;", "rnmid;", "roang;", "roarr;", "robrk;", "ropar;", "ropf;", "roplus;",
   "rotimes;", "rpar;", "rpargt;", "rppolint;", "rrarr;", "rsaquo;", "rscr;", "rsh;", "rsqb;",
   "rsquo;", "rsquor;", "rthree;", "rtimes;", "rtri;", "rtrie;", "rtrif;", "rtriltri;",
   "ruluhar;", "rx;"]

/-- Names of the named character references that start with the letter s. -/
def entityNamesLowerS : List String :=
  ["sacute;", "sbquo;", "sc;", "scE;", "scap;", "scaron;", "sccue;", "sce;", "scedil;",
   "scirc;", "scnE;", "scnap;", "scnsim;", "scpolint;", "scsim;", "scy;", "sdot;", "sdotb;",
   "sdote;", "seArr;", "searhk;", "searr;", "searrow;", "sect", "sect;", "semi;", "seswar;",
   "setminus;", "setmn;", "sext;", "sfr;", "sfrown;", "sharp;", "shchcy;", "shcy;", "shortmid;",
   "shortparallel;", "shy", "shy;", "sigma;", "sigmaf;", "sigmav;", "sim;", "simdot;", "sime;",
   "simeq;", "simg;", "simgE;", "siml;", "simlE;", "simne;", "simplus;", "simrarr;", "slarr;",
   "smallsetminus;", "smashp;", "smeparsl;", "smid;", "smile;", "smt;", "smte;", "smtes;",
   "softcy;", "sol;", "solb;", "solbar;", "sopf;", "spades;", "spadesuit;", "spar;", "sqcap;",
   "sqcaps;", "sqcup;", "sqcups;", "sqsub;", "sqsube;", "sqsubset;", "sqsubseteq;", "sqsup;",
   "sqsupe;", "sqsupset;", "sqsupseteq;", "squ;", "square;", "squarf;", "squf;", "srarr;",
   "sscr;", "ssetmn;", "ssmile;", "sstarf;", "star;", "starf;", "straightepsilon;",
   "straightphi;", "strns;", "sub;", "subE;", "subdot;", "sube;", "subedot;", "submult;",
   "subnE;", "subne;", "subplus;", "subrarr;", "subset;", "subseteq;", "subseteqq;",
   "subsetneq;", "subsetneqq;", "subsim;", "subsub;", "subsup;", "succ;", "succapprox;",
   "succcurlyeq;", "succeq;", "succnapprox;", "succneqq;", "succnsim;", "succsim;", "sum;",
   "sung;", "sup1", "sup1;", "sup2", "sup2;", "sup3", "sup3;", "sup;", "supE;", "supdot;",
   "supdsub;", "supe;", "supedot;", "suphsol;", "suphsub;", "suplarr;", "supmult;", "supnE;",
   "supne;", "supplus;", "supset;", "supseteq;", "supseteqq;", "supsetneq;", "supsetneqq;",
   "supsim;", "supsub;", "supsup;", "swArr;", "swarhk;", "swarr;", "swarrow;", "swnwar;",
   "szlig", "szlig;"]

/-- Names of the named character references that start with the letter t. -/
def entityNamesLowerT : List String :=
  ["target;", "tau;", "tbrk;", "tcaron;", "tcedil;", "tcy;", "tdot;", "telrec;", "tfr;",
   "there4;", "therefore;", "theta;", "thetasym;", "thetav;", "thickapprox;", "thicksim;",
   "thinsp;", "thkap;", "thksim;", "thorn", "thorn;", "tilde;", "times", "times;", "timesb;",
   "timesbar;", "timesd;", "tint;", "toea;", "top;", "topbot;", "topcir;", "topf;", "topfork;",
   "tosa;", "tprime;", "trade;", "triangle;", "triangledown;", "triangleleft;",
   "trianglelefteq;", "triangleq;", "triangleright;", "trianglerighteq;", "tridot;", "trie;",
   "triminus;", "triplus;", "trisb;", "tritime;", "trpezium;", "tscr;", "tscy;", "tshcy;",
   "tstrok;", "twixt;", "twoheadleftarrow;", "twoheadrightarrow;"]

/-- Names of the named character references that start with the letter u. -/
def entityNamesLowerU : List String :=
  ["uArr;", "uHar;", "uacute", "uacute;", "uarr;", "ubrcy;", "ubreve;", "ucirc", "ucirc;",
   "ucy;", "udarr;", "udblac;", "udhar;", "ufisht;", "ufr;", "ugrave", "ugrave;", "uharl;",
   "uharr;", "uhblk;", "ulcorn;", "ulcorner;", "ulcrop;", "ultri;", "umacr;", "uml", "uml;",
   "uogon;", "uopf;", "uparrow;", "updownarrow;", "upharpoonleft;", "upharpoonright;", "uplus;",
   "upsi;", "upsih;", "upsilon;", "upuparrows;", "urcorn;", "urcorner;", "urcrop;", "uring;",
   "urtri;", "uscr;", "utdot;", "utilde;", "utri;", "utrif;", "uuarr;", "uuml", "uuml;",
   "uwangle;"]

/-- Names of the named character references that start with the letter v. -/
def entityNamesLowerV : List String :=
  ["vArr;", "vBar;", "vBarv;", "vDash;", "vangrt;", "varepsilon;", "varkappa;", "varnothing;",
   "varphi;", "varpi;", "varpropto;", "varr;", "varrho;", "varsigma;", "varsubsetneq;",
   "varsubsetneqq;", "varsupsetneq;", "varsupsetneqq;", "vartheta;", "vartriangleleft;",
   "vartriangleright;", "vcy;", "vdash;", "vee;", "veebar;", "veeeq;", "vellip;", "verbar;",
   "vert;", "vfr;", "vltri;", "vnsub;", "vnsup;", "vopf;", "vprop;", "vrtri;", "vscr;",
   "vsubnE;", "vsubne;", "vsupnE;", "vsupne;", "vzigzag;"]

/-- Names of the named character references that start with the letter w. -/
def entityNamesLowerW : List String :=
  ["wcirc;", "wedbar;", "wedge;", "wedgeq;", "weierp;", "wfr;", "wopf;", "wp;", "wr;",
   "wreath;", "wscr;"]

/-- Names of the named character references that start with the letter x. -/
def entityNamesLowerX : List String :=
  ["xcap;", "xcirc;", "xcup;", "xdtri;", "xfr;", "xhArr;", "xharr;", "xi;", "xlArr;", "xlarr;",
   "xmap;", "xnis;", "xodot;", "xopf;", "xoplus;", "xotime;", "xrArr;", "xrarr;", "xscr;",
   "xsqcup;", "xuplus;", "xutri;", "xvee;", "xwedge;"]

/-- Names of the named character references that start with the letter y. -/
def entityNamesLowerY : List String :=
  ["yacute", "yacute;", "yacy;", "ycirc;", "ycy;", "yen", "yen;", "yfr;", "yicy;", "yopf;",
   "yscr;", "yucy;", "yuml", "yuml;"]

/-- Names of the named character references that start with the letter z. -/
def entityNamesLowerZ : List String :=
  ["zacute;", "zcaron;", "zcy;", "zdot;", "zeetrf;", "zeta;", "zfr;", "zhcy;", "zigrarr;",
   "zopf;", "zscr;", "zwj;", "zwnj;"]

/-- The names of the HTML named character references, each with its semicolon
when it has one; the names that are also recognised without semicolon appear a
second time without it. -/
def entityNames : List String :=
  entityNamesUpperA ++ entityNamesUpperB ++ entityNamesUpperC ++ entityNamesUpperD ++
    entityNamesUpperE ++ entityNamesUpperF ++ entityNamesUpperG ++ entityNamesUpperH ++
    entityNamesUpperI ++ entityNamesUpperJ ++ entityNamesUpperK ++ entityNamesUpperL ++
    entityNamesUpperM ++ entityNamesUpperN ++ entityNamesUpperO ++ entityNamesUpperP ++
    entityNamesUpperQ ++ entityNamesUpperR ++ entityNamesUpperS ++ entityNamesUpperT ++
    entityNamesUpperU ++ entityNamesUpperV ++ entityNamesUpperW ++ entityNamesUpperX ++
    entityNamesUpperY ++ entityNamesUpperZ ++ entityNamesLowerA ++ entityNamesLowerB ++
    entityNamesLowerC ++ entityNamesLowerD ++ entityNamesLowerE ++ entityNamesLowerF ++
    entityNamesLowerG ++ entityNamesLowerH ++ entityNamesLowerI ++ entityNamesLowerJ ++
    entityNamesLowerK ++ entityNamesLowerL ++ entityNamesLowerM ++ entityNamesLowerN ++
    entityNamesLowerO ++ entityNamesLowerP ++ entityNamesLowerQ ++ entityNamesLowerR ++
    entityNamesLowerS ++ entityNamesLowerT ++ entityNamesLowerU ++ entityNamesLowerV ++
    entityNamesLowerW ++ entityNamesLowerX ++ entityNamesLowerY ++ entityNamesLowerZ

/-! ## Reading of the course panel's markup

What the HTML parser makes of the markup `showCourseInfo` assigns, as far as the
target of the download link goes. The reading follows the tokenizer of the HTML
standard on markup of the template's form and answers `none` wherever it does not
settle the target. -/

/-- The quotation mark. -/
def quoteChar : Char := Char.ofNat 34

/-- The character NUL. -/
def nulChar : Char := Char.ofNat 0

/-- The replacement character U+FFFD. -/
def replacementChar : Char := Char.ofNat 0xFFFD

/-- An ASCII hexadecimal digit. -/
def isHexDigit (c : Char) : Bool :=
  c.isDigit || ('a' ≤ c && c ≤ 'f') || ('A' ≤ c && c ≤ 'F')

/-- Whether the text after an ampersand begins a numeric character reference:
`#` and a digit, or `#x` and a hexadecimal digit. -/
def startsNumericReference : List Char → Bool
  | '#' :: d :: rest =>
    d.isDigit || ((d == 'x' || d == 'X') && (match rest with
      | h :: _ => isHexDigit h
      | [] => false))
  | _ => false

/-- Whether the name `n` stands right after an ampersand of an attribute value and
is decoded there: it is when it ends in a semicolon, or when the character after it
is neither `=` nor alphanumeric. -/
def decodesAs (n cs : List Char) : Bool :=
  n.isPrefixOf cs &&
    (n.getLast? == some ';' || (match cs.drop n.length with
      | d :: _ => !(d == '=' || d.isAlphanum)
      | [] => true))

/-- Whether the text after an ampersand of an attribute value begins a character
reference that the tokenizer decodes. -/
def startsReference (cs : List Char) : Bool :=
  startsNumericReference cs || entityNames.any (fun n => decodesAs n.data cs)

/-- Whether some ampersand of the text begins a character reference that the
tokenizer decodes. -/
def hasDecodedReference : List Char → Bool
  | [] => false
  | c :: cs => (c == '&' && startsReference cs) || hasDecodedReference cs

/-- Start of the anchor tag as the template writes it, up to the quotation mark
that opens the value of `href`. -/
def anchorOpen : List Char := ['<', 'a', ' ', 'h', 'r', 'e', 'f', '=', quoteChar]

/-- Rest of the anchor tag as the template writes it, from the quotation mark that
closes the value of `href`. -/
def linkTail : List Char := "\" class=\"download-btn\" target=\"_blank\">".data

/-- The tags the template writes before the anchor. -/
def knownTags : List (List Char) :=
  ["<h3>".data, "</h3>".data, "<p>".data, "</p>".data, "<strong>".data, "</strong>".data]

/-- Characters that, right after `<`, make the tokenizer leave plain text: a letter
opens a tag, `/` an end tag, `!` a comment or declaration, `?` a bogus comment. -/
def opensTag (c : Char) : Bool :=
  c.isAlpha || c == '/' || c == '!' || c == '?'

/-- Text following the first anchor written as `anchorOpen`, provided that nothing
but text and the tags of the template comes before it. -/
def scanToAnchor : List Char → Option (List Char)
  | [] => none
  | c :: cs =>
    if c = '<' then
      if knownTags.any (fun t => t.isPrefixOf (c :: cs)) then scanToAnchor cs
      else if anchorOpen.isPrefixOf (c :: cs) then some ((c :: cs).drop anchorOpen.length)
      else match cs with
        | d :: _ => if opensTag d then none else scanToAnchor cs
        | [] => none
    else scanToAnchor cs

/-- Value of a double-quoted attribute whose text between the quotation marks is
`raw`: newlines normalised, NUL replaced by U+FFFD; `none` when a character
reference is decoded in it. -/
def attributeValue (raw : List Char) : Option (List Char) :=
  let v := normalizeNewlines raw
  if hasDecodedReference (v ++ [quoteChar]) then none
  else some (v.map (fun c => if c = nulChar then replacementChar else c))

/-- Target of the download link rendered from a markup: the `href` of the first
anchor, when it is written the way the template writes it and preceded only by text
and the tags of the template. -/
def linkTarget (html : String) : Option String :=
  match scanToAnchor html.data with
  | none => none
  | some rest =>
    let raw := rest.takeWhile (fun c => c != quoteChar)
    if linkTail.isPrefixOf (rest.drop raw.length) then (attributeValue raw).map String.mk
    else none

/-- Text that opens no tag, end tag, comment or declaration: every `<` of it is
followed by a character that keeps the tokenizer in plain text, or ends it. -/
def noTagOpen : List Char → Bool
  | [] => true
  | c :: cs =>
    (c != '<' || (match cs with
      | d :: _ => !opensTag d
      | [] => true)) && noTagOpen cs

/-- Text that a double-quoted attribute value hands back unchanged: no quotation
mark, no carriage return, no NUL, no decoded character reference. -/
def plainAttributeValue (cs : List Char) : Bool :=
  cs.all (fun c => !(c == quoteChar || c == cr || c == nulChar)) &&
    !hasDecodedReference (cs ++ [quoteChar])

/-- Literal text of the template in which every `<` starts one of the template's
tags. -/
def templateText : List Char → Bool
  | [] => true
  | c :: cs => (c != '<' || knownTags.any (fun t => t.isPrefixOf (c :: cs))) && templateText cs

/-- The number five. -/
def JsNumber.five : JsNumber := { isZero := false, text := "5", text_plain := by decide }

/-- A course result: title, number of chapters and download URL, under the names
the server gives them. -/
structure CourseResult where
  course_title : String
  chapter_count : JsNumber
  download_url : String
  deriving DecidableEq

/-- The parsed object of a course result. -/
def CourseResult.toObj (r : CourseResult) : JsObj := fun k =>
  if k = "course_title" then .str r.course_title
  else if k = "chapter_count" then .num r.chapter_count
  else if k = "download_url" then .str r.download_url
  else .undefined

/-- The object of the example call `showCourseInfo` is specified with: properties
`title`, `chapterCount` and `downloadUrl`. -/
def camelCaseCourse : JsObj := fun k =>
  if k = "title" then .str "T"
  else if k = "chapterCount" then .num JsNumber.five
  else if k = "downloadUrl" then .str "/x"
  else .undefined


/-- A course whose title is markup of an element with the id of the loading
placeholder. -/
def injectedCourse : CourseResult :=
  { course_title := "<i id=\"loadingIndicator\">x</i>", chapter_count := JsNumber.five,
    download_url := "/x" }

/-- A page of which the parser reading is needed at one markup only, the one
`showCourseInfo` assigns for `injectedCourse`: the fragment built from it holds the
`i` element of the title, which carries the id. -/
def Page.injected : Page :=
  { Page.plain with
    loadingRoots := fun html =>
      if html = courseMarkup injectedCourse.course_title injectedCourse.chapter_count.text
          injectedCourse.download_url
      then 1 else 0 }

/-! ## Basic facts -/

theorem trimChars_eq_nil_iff (cs : List Char) :
    trimChars cs = [] ↔ ∀ c ∈ cs, isJsWhiteSpace c = true := by
  unfold trimChars
  rw [List.reverse_eq_nil_iff, List.dropWhile_eq_nil_iff]
  constructor
  · intro h
    have hnil : cs.dropWhile isJsWhiteSpace = [] := by
      cases hd : cs.dropWhile isJsWhiteSpace with
      | nil => rfl
      | cons a as =>
        have h1 : isJsWhiteSpace a = true := by
          apply h
          rw [hd]
          simp
        have h2 := List.head_dropWhile_not isJsWhiteSpace cs (by rw [hd]; simp)
        simp [hd] at h2
        rw [h2] at h1
        exact absurd h1 (by decide)
    exact List.dropWhile_eq_nil_iff.mp hnil
  · intro h
    rw [List.dropWhile_eq_nil_iff.mpr h]
    simp

theorem jsTrim_eq_empty_iff (v : String) :
    jsTrim v = "" ↔ ∀ c ∈ v.data, isJsWhiteSpace c = true := by
  rw [← trimChars_eq_nil_iff]
  unfold jsTrim
  constructor
  · intro h
    have := congrArg String.data h
    simpa using this
  · intro h
    rw [h]

theorem sendMessageReturnsEarly_iff (s : Client) :
    sendMessageReturnsEarly s = true ↔
      (s.isProcessing = true ∨ ∀ c ∈ s.userInput.data, isJsWhiteSpace c = true) := by
  unfold sendMessageReturnsEarly
  rw [Bool.or_eq_true, beq_iff_eq, jsTrim_eq_empty_iff]

theorem sendMessageReturnsEarly_eq_false (s : Client) (hp : s.isProcessing = false)
    (hi : ∃ c ∈ s.userInput.data, isJsWhiteSpace c = false) :
    sendMessageReturnsEarly s = false := by
  cases h : sendMessageReturnsEarly s with
  | false => rfl
  | true =>
    rcases (sendMessageReturnsEarly_iff s).mp h with h1 | h1
    · rw [hp] at h1
      exact absurd h1 (by decide)
    · obtain ⟨c, hc, hw⟩ := hi
      rw [h1 c hc] at hw
      exact absurd hw (by decide)

theorem sendMessageResume_flags (o : Outcome) (s : Client) :
    (sendMessageResume o s).isProcessing = false ∧
      (sendMessageResume o s).sendDisabled = false := by
  simp [sendMessageResume]

theorem showOptions_foldl_buttons (options : List String) (s : Client) :
    (options.foldl
      (fun s option =>
        { s with optionButtons :=
            s.optionButtons ++ [({ textContent := option, option := option } : OptionButton)] })
      s).optionButtons
      = s.optionButtons ++ options.map (fun o => { textContent := o, option := o }) := by
  induction options generalizing s with
  | nil => simp
  | cons o os ih => simp [List.foldl, ih]

theorem showOptions_buttons (options : List String) (s : Client) :
    (showOptions options s).optionButtons
      = options.map (fun o => { textContent := o, option := o }) := by
  unfold showOptions
  simpa using showOptions_foldl_buttons options { s with optionButtons := [] }

theorem showOptions_foldl_chatHistory (options : List String) (s : Client) :
    (options.foldl
      (fun s option =>
        { s with optionButtons :=
            s.optionButtons ++ [({ textContent := option, option := option } : OptionButton)] })
      s).chatHistory = s.chatHistory := by
  induction options generalizing s with
  | nil => simp
  | cons o os ih => simp [List.foldl, ih]

theorem showOptions_chatHistory (options : List String) (s : Client) :
    (showOptions options s).chatHistory = s.chatHistory := by
  unfold showOptions
  simpa using showOptions_foldl_chatHistory options { s with optionButtons := [] }

theorem sendMessageTry_typed_chatHistory (r : InteractResponse) (s : Client) :
    (sendMessageTry (.parsed r.toObj) s).1.chatHistory
        = s.chatHistory ++ consultantEntry r.message ++ consultantEntry r.next_prompt ++
          consultantEntry r.error ∧
      (sendMessageTry (.parsed r.toObj) s).2 = false := by
  obtain ⟨m, p, os, ct, cc, du, e⟩ := r
  cases m <;> cases p <;> cases os <;> cases e <;>
    simp [sendMessageTry, InteractResponse.toObj, optField, JsVal.truthy, consultantEntry,
      JsVal.domString, JsVal.toStr, addMessage, showOptions_chatHistory, showCourseInfo,
      apply_ite Client.chatHistory] <;>
    (split_ifs <;> simp)

theorem showOptions_foldl_requests (options : List String) (s : Client) :
    (options.foldl
      (fun s option =>
        { s with optionButtons :=
            s.optionButtons ++ [({ textContent := option, option := option } : OptionButton)] })
      s).requests = s.requests := by
  induction options generalizing s with
  | nil => simp
  | cons o os ih => simp [List.foldl, ih]

theorem showOptions_requests (options : List String) (s : Client) :
    (showOptions options s).requests = s.requests := by
  unfold showOptions
  simpa using showOptions_foldl_requests options { s with optionButtons := [] }

theorem sendMessageTry_typed_requests (r : InteractResponse) (s : Client) :
    (sendMessageTry (.parsed r.toObj) s).1.requests = s.requests := by
  obtain ⟨m, p, os, ct, cc, du, e⟩ := r
  cases os <;>
    simp [sendMessageTry, InteractResponse.toObj, optField, JsVal.truthy,
      addMessage, showOptions_requests, showCourseInfo,
      apply_ite Client.requests]

theorem showOptions_foldl_isProcessing (options : List String) (s : Client) :
    (options.foldl
      (fun s option =>
        { s with optionButtons :=
            s.optionButtons ++ [({ textContent := option, option := option } : OptionButton)] })
      s).isProcessing = s.isProcessing := by
  induction options generalizing s with
  | nil => simp
  | cons o os ih => simp [List.foldl, ih]

theorem showOptions_isProcessing (options : List String) (s : Client) :
    (showOptions options s).isProcessing = s.isProcessing := by
  unfold showOptions
  simpa using showOptions_foldl_isProcessing options { s with optionButtons := [] }

theorem loadingCount_addMessage (type content : String) (s : Client) :
    loadingCount (addMessage type content s) = loadingCount s := by
  simp [loadingCount, addMessage, List.countP_append, Node.isLoading]

theorem loadingCount_showOptions (options : List String) (s : Client) :
    loadingCount (showOptions options s) = loadingCount s := by
  simp [loadingCount, showOptions_chatHistory]

theorem countP_removeFirstLoading_le (ns : List Node) :
    (removeFirstLoading ns).countP Node.isLoading ≤ ns.countP Node.isLoading := by
  induction ns with
  | nil => simp [removeFirstLoading]
  | cons n ns ih =>
    unfold removeFirstLoading
    cases hn : n.isLoading with
    | true => simp [List.countP_cons, hn]
    | false => simpa [List.countP_cons, hn] using ih

theorem loadingCount_removeLoading_le (s : Client) :
    loadingCount (removeLoading s) ≤ loadingCount s := by
  unfold removeLoading
  split
  · exact Nat.le_refl _
  · exact countP_removeFirstLoading_le s.chatHistory
  · exact Nat.le_refl _

theorem removeLoading_isProcessing (s : Client) :
    (removeLoading s).isProcessing = s.isProcessing := by
  unfold removeLoading
  split <;> rfl

theorem loadingCount_sendMessageBegin (s : Client) :
    loadingCount (sendMessageBegin s) = loadingCount s := by
  simp [loadingCount, sendMessageBegin, addMessage, List.countP_append, Node.isLoading]

theorem loadingCount_ite (c : Bool) (f : Client → Client) (s : Client)
    (h : loadingCount (f s) = loadingCount s) :
    loadingCount (if c = true then f s else s) = loadingCount s := by
  cases c
  · rfl
  · simpa using h

theorem loadingCount_showCourseInfo (data : JsObj) (s : Client) :
    loadingCount (showCourseInfo data s) = loadingCount s := rfl

theorem loadingCount_sendMessageTry (o : Outcome) (s : Client) :
    loadingCount (sendMessageTry o s).1 = loadingCount s := by
  cases o with
  | rejected => rfl
  | parseFailure => rfl
  | parsedNull => rfl
  | parsed data =>
    simp only [sendMessageTry]
    have h1 := loadingCount_ite (data "message").truthy
      (addMessage "consultant" (data "message").domString) s (loadingCount_addMessage _ _ _)
    generalize (if (data "message").truthy = true
      then addMessage "consultant" (data "message").domString s else s) = s1 at h1 ⊢
    have h2 := loadingCount_ite (data "next_prompt").truthy
      (addMessage "consultant" (data "next_prompt").domString) s1
      (loadingCount_addMessage _ _ _)
    generalize (if (data "next_prompt").truthy = true
      then addMessage "consultant" (data "next_prompt").domString s1 else s1) = s2 at h2 ⊢
    rw [← h1, ← h2]
    generalize (data "course_title").truthy = bc
    generalize (data "download_url").truthy = bd
    generalize (data "error").truthy = be
    cases hd : data "options" <;> cases bc <;> cases bd <;> cases be <;>
      simp [JsVal.truthy, loadingCount, addMessage, showCourseInfo, showOptions_chatHistory,
        List.countP_append, Node.isLoading] <;>
      split_ifs <;>
      simp [List.countP_append, Node.isLoading]

theorem loadingCount_sendMessageResume (o : Outcome) (s : Client) :
    loadingCount (sendMessageResume o s) = loadingCount s := by
  have h := loadingCount_sendMessageTry o s
  unfold sendMessageResume
  generalize sendMessageTry o s = r at h ⊢
  obtain ⟨s1, threw⟩ := r
  cases threw
  · simpa [loadingCount] using h
  · simpa [loadingCount, addMessage, List.countP_append, Node.isLoading] using h

theorem loadingCount_startSessionResume (o : Outcome) (s : Client) :
    loadingCount (startSessionResume o s) = loadingCount s := by
  cases o <;>
    simp [startSessionResume, loadingCount, addMessage, List.countP_append, Node.isLoading]

theorem loadingCount_generateCourseTry_le (o : Outcome) (s : Client) :
    loadingCount (generateCourseTry o s).1 ≤ loadingCount s := by
  cases o with
  | rejected => exact Nat.le_refl _
  | parseFailure => exact Nat.le_refl _
  | parsedNull => exact loadingCount_removeLoading_le s
  | parsed data =>
    have h0 := loadingCount_removeLoading_le s
    simp only [generateCourseTry]
    generalize removeLoading s = s0 at h0 ⊢
    generalize (data "message").truthy = bm
    generalize (data "course_title").truthy = bc
    generalize (data "download_url").truthy = bd
    cases bm <;> cases bc <;> cases bd <;>
      simpa [loadingCount, addMessage, showCourseInfo, List.countP_append, Node.isLoading]
        using h0

theorem loadingCount_generateCourseResume_le (o : Outcome) (s : Client) :
    loadingCount (generateCourseResume o s) ≤ loadingCount s := by
  have h := loadingCount_generateCourseTry_le o s
  unfold generateCourseResume
  generalize generateCourseTry o s = r at h ⊢
  obtain ⟨s1, threw⟩ := r
  cases threw
  · simpa [loadingCount] using h
  · have h2 := loadingCount_removeLoading_le s1
    have h3 := loadingCount_addMessage "consultant" "生成课程失败，请重试。" (removeLoading s1)
    have h4 : loadingCount s1 ≤ loadingCount s := h
    show loadingCount (addMessage "consultant" "生成课程失败，请重试。" (removeLoading s1)) ≤ _
    omega

theorem loadingCount_clickOption (k : Nat) (s : Client) :
    loadingCount (clickOption k s).1 = loadingCount s := by
  unfold clickOption
  split
  · rfl
  · dsimp only
    split
    · rfl
    · exact loadingCount_sendMessageBegin _

/-- Effect of one event on the number of placeholders. -/
theorem loadingCount_step (e : Event) (σ σ1 : Sys) (h : step e σ = some σ1) :
    (∀ text, e ≠ Event.showLoading text) → loadingCount σ1.client ≤ loadingCount σ.client := by
  intro hne
  cases e with
  | input v =>
    simp only [step, Option.some.injEq] at h
    subst h
    exact Nat.le_refl _
  | optionClick k =>
    simp only [step, Option.some.injEq] at h
    subst h
    exact Nat.le_of_eq (loadingCount_clickOption k σ.client)
  | startSessionCall =>
    simp only [step, Option.some.injEq] at h
    subst h
    exact Nat.le_refl _
  | startSessionDone o =>
    simp only [step] at h
    split at h
    · simp only [Option.some.injEq] at h
      subst h
      exact Nat.le_of_eq (loadingCount_startSessionResume o σ.client)
    · exact absurd h (by simp)
  | sendMessageCall =>
    simp only [step] at h
    split at h
    · simp only [Option.some.injEq] at h
      subst h
      exact Nat.le_refl _
    · simp only [Option.some.injEq] at h
      subst h
      exact Nat.le_of_eq (loadingCount_sendMessageBegin σ.client)
  | sendMessageDone o =>
    simp only [step] at h
    split at h
    · simp only [Option.some.injEq] at h
      subst h
      exact Nat.le_of_eq (loadingCount_sendMessageResume o σ.client)
    · exact absurd h (by simp)
  | generateCourseCall =>
    simp only [step, Option.some.injEq] at h
    subst h
    exact Nat.le_refl _
  | generateCourseDone o =>
    simp only [step] at h
    split at h
    · simp only [Option.some.injEq] at h
      subst h
      exact loadingCount_generateCourseResume_le o σ.client
    · exact absurd h (by simp)
  | addMessage type content =>
    simp only [step, Option.some.injEq] at h
    subst h
    exact Nat.le_of_eq (loadingCount_addMessage type content σ.client)
  | showOptions options =>
    simp only [step, Option.some.injEq] at h
    subst h
    exact Nat.le_of_eq (loadingCount_showOptions options σ.client)
  | showLoading text => exact absurd rfl (hne text)
  | removeLoading =>
    simp only [step, Option.some.injEq] at h
    subst h
    exact loadingCount_removeLoading_le σ.client
  | showCourseInfo data =>
    simp only [step, Option.some.injEq] at h
    subst h
    exact Nat.le_refl _

theorem loadingCount_showLoading (text : String) (s : Client) :
    loadingCount (showLoading text s) = loadingCount s + 1 := by
  simp [loadingCount, showLoading, List.countP_append, Node.isLoading]

/-- Invariants of a step are invariants of an execution. -/
theorem runWhere_invariant (allowed : Event → Sys → Bool) (P : Sys → Prop)
    (hstep : ∀ e σ σ1, allowed e σ = true → P σ → step e σ = some σ1 → P σ1)
    (es : List Event) (σ0 σ : Sys) (h0 : P σ0) (hrun : runWhere allowed es σ0 = some σ) :
    P σ := by
  induction es generalizing σ0 with
  | nil =>
    simp only [runWhere, Option.some.injEq] at hrun
    subst hrun
    exact h0
  | cons e es ih =>
    simp only [runWhere] at hrun
    split at hrun
    · rename_i ha
      cases hs : step e σ0 with
      | none => simp [hs] at hrun
      | some σ1 =>
        rw [hs] at hrun
        exact ih σ1 (hstep e σ0 σ1 ha h0 hs) hrun
    · exact absurd hrun (by simp)


theorem startSessionResume_isProcessing (o : Outcome) (s : Client) :
    (startSessionResume o s).isProcessing = s.isProcessing := by
  cases o <;> rfl

theorem generateCourseResume_isProcessing (o : Outcome) (s : Client) :
    (generateCourseResume o s).isProcessing = false := by
  simp [generateCourseResume]

theorem isProcessing_of_not_returnsEarly (s : Client)
    (h : sendMessageReturnsEarly s = false) : s.isProcessing = false := by
  unfold sendMessageReturnsEarly at h
  rw [Bool.or_eq_false_iff] at h
  exact h.1

/-- The two ways a click on an option ends: nothing sent and the flag untouched, or
a request sent from an idle client and the flag raised. -/
theorem clickOption_cases (k : Nat) (s : Client) :
    ((clickOption k s).2 = false ∧ (clickOption k s).1.isProcessing = s.isProcessing) ∨
      ((clickOption k s).2 = true ∧ (clickOption k s).1.isProcessing = true ∧
        s.isProcessing = false) := by
  unfold clickOption
  split
  · exact Or.inl ⟨rfl, rfl⟩
  · rename_i btn hb
    dsimp only
    cases hg : sendMessageReturnsEarly
        { s with userInput := s.page.inputKind.store btn.option } with
    | true => exact Or.inl ⟨by simp, by simp⟩
    | false =>
      refine Or.inr ⟨by simp, by simp [sendMessageBegin, addMessage], ?_⟩
      exact isProcessing_of_not_returnsEarly
        { s with userInput := s.page.inputKind.store btn.option } hg

/-- One event keeps: while `isProcessing` is true an interaction request is in
flight. -/
theorem step_processing_pending (e : Event) (σ σ1 : Sys) (h : step e σ = some σ1)
    (hI : σ.client.isProcessing = true → 0 < σ.pendingSend) :
    σ1.client.isProcessing = true → 0 < σ1.pendingSend := by
  cases e with
  | input v =>
    simp only [step, Option.some.injEq] at h
    subst h
    exact hI
  | optionClick k =>
    simp only [step, Option.some.injEq] at h
    subst h
    rcases clickOption_cases k σ.client with ⟨h2, h1⟩ | ⟨h2, h1, _⟩
    · intro hp
      rw [h1] at hp
      simpa [h2] using hI hp
    · intro _
      simp [h2]
  | startSessionCall =>
    simp only [step, Option.some.injEq] at h
    subst h
    exact hI
  | startSessionDone o =>
    simp only [step] at h
    split at h
    · simp only [Option.some.injEq] at h
      subst h
      intro hp
      rw [startSessionResume_isProcessing] at hp
      exact hI hp
    · exact absurd h (by simp)
  | sendMessageCall =>
    simp only [step] at h
    split at h
    · simp only [Option.some.injEq] at h
      subst h
      exact hI
    · simp only [Option.some.injEq] at h
      subst h
      intro _
      exact Nat.succ_pos _
  | sendMessageDone o =>
    simp only [step] at h
    split at h
    · simp only [Option.some.injEq] at h
      subst h
      intro hp
      rw [(sendMessageResume_flags o σ.client).1] at hp
      exact absurd hp (by decide)
    · exact absurd h (by simp)
  | generateCourseCall =>
    simp only [step, Option.some.injEq] at h
    subst h
    exact hI
  | generateCourseDone o =>
    simp only [step] at h
    split at h
    · simp only [Option.some.injEq] at h
      subst h
      intro hp
      rw [generateCourseResume_isProcessing] at hp
      exact absurd hp (by decide)
    · exact absurd h (by simp)
  | addMessage type content =>
    simp only [step, Option.some.injEq] at h
    subst h
    exact hI
  | showOptions options =>
    simp only [step, Option.some.injEq] at h
    subst h
    intro hp
    rw [showOptions_isProcessing] at hp
    exact hI hp
  | showLoading text =>
    simp only [step, Option.some.injEq] at h
    subst h
    exact hI
  | removeLoading =>
    simp only [step, Option.some.injEq] at h
    subst h
    intro hp
    rw [removeLoading_isProcessing] at hp
    exact hI hp
  | showCourseInfo data =>
    simp only [step, Option.some.injEq] at h
    subst h
    exact hI

/-- One event other than the completion of a `generateCourse` request keeps: the
number of interaction requests in flight is one while `isProcessing` is true and
zero while it is false. -/
theorem step_processing_exact (e : Event) (σ σ1 : Sys) (h : step e σ = some σ1)
    (hne : noGenerateCourseDone e σ = true)
    (hI : σ.pendingSend = if σ.client.isProcessing = true then 1 else 0) :
    σ1.pendingSend = if σ1.client.isProcessing = true then 1 else 0 := by
  cases e with
  | input v =>
    simp only [step, Option.some.injEq] at h
    subst h
    exact hI
  | optionClick k =>
    simp only [step, Option.some.injEq] at h
    subst h
    rcases clickOption_cases k σ.client with ⟨h2, h1⟩ | ⟨h2, h1, h0⟩
    · simpa [h2, h1] using hI
    · rw [h0] at hI
      simp [h2, h1, hI]
  | startSessionCall =>
    simp only [step, Option.some.injEq] at h
    subst h
    exact hI
  | startSessionDone o =>
    simp only [step] at h
    split at h
    · simp only [Option.some.injEq] at h
      subst h
      simpa [startSessionResume_isProcessing] using hI
    · exact absurd h (by simp)
  | sendMessageCall =>
    simp only [step] at h
    split at h
    · simp only [Option.some.injEq] at h
      subst h
      exact hI
    · rename_i hg
      simp only [Option.some.injEq] at h
      subst h
      have h0 := isProcessing_of_not_returnsEarly σ.client (by simpa using hg)
      rw [h0] at hI
      simp [sendMessageBegin, addMessage, hI]
  | sendMessageDone o =>
    simp only [step] at h
    split at h
    · rename_i hpos
      simp only [Option.some.injEq] at h
      subst h
      have hp : σ.client.isProcessing = true := by
        cases hb : σ.client.isProcessing with
        | true => rfl
        | false =>
          rw [hb] at hI
          simp at hI
          omega
      rw [hp] at hI
      simp [(sendMessageResume_flags o σ.client).1, hI]
    · exact absurd h (by simp)
  | generateCourseCall =>
    simp only [step, Option.some.injEq] at h
    subst h
    exact hI
  | generateCourseDone o => exact absurd hne (by simp [noGenerateCourseDone])
  | addMessage type content =>
    simp only [step, Option.some.injEq] at h
    subst h
    exact hI
  | showOptions options =>
    simp only [step, Option.some.injEq] at h
    subst h
    simpa [showOptions_isProcessing] using hI
  | showLoading text =>
    simp only [step, Option.some.injEq] at h
    subst h
    exact hI
  | removeLoading =>
    simp only [step, Option.some.injEq] at h
    subst h
    simpa [removeLoading_isProcessing] using hI
  | showCourseInfo data =>
    simp only [step, Option.some.injEq] at h
    subst h
    exact hI

/-- An execution all of whose events a discipline admits in every state is an
execution under that discipline. -/
theorem runWhere_of_run (allowed : Event → Sys → Bool) (es : List Event) (σ0 σ : Sys)
    (hall : ∀ e ∈ es, ∀ τ, allowed e τ = true) (hrun : run es σ0 = some σ) :
    runWhere allowed es σ0 = some σ := by
  unfold run at hrun
  induction es generalizing σ0 with
  | nil => simpa [runWhere] using hrun
  | cons e es ih =>
    simp only [runWhere, if_true] at hrun
    simp only [runWhere, hall e (List.mem_cons_self _ _), if_true]
    cases hs : step e σ0 with
    | none => simp [hs] at hrun
    | some σ1 =>
      rw [hs] at hrun
      exact ih σ1 (fun d hd => hall d (List.mem_cons_of_mem _ hd)) hrun

/-! ### Text controls -/

theorem isJsWhiteSpace_lf : isJsWhiteSpace lf = true := by decide

theorem isJsWhiteSpace_cr : isJsWhiteSpace cr = true := by decide

theorem mem_normalizeNewlinesAux (b : Bool) (cs : List Char) (c : Char)
    (h : c ∈ normalizeNewlinesAux b cs) : c ∈ cs ∨ c = lf := by
  induction cs generalizing b with
  | nil => simp [normalizeNewlinesAux] at h
  | cons d ds ih =>
    unfold normalizeNewlinesAux at h
    split_ifs at h with h1 h2
    · rcases List.mem_cons.mp h with h3 | h3
      · exact Or.inr h3
      · rcases ih true h3 with h4 | h4
        · exact Or.inl (List.mem_cons_of_mem _ h4)
        · exact Or.inr h4
    · rcases ih false h with h4 | h4
      · exact Or.inl (List.mem_cons_of_mem _ h4)
      · exact Or.inr h4
    · rcases List.mem_cons.mp h with h3 | h3
      · exact Or.inl (h3 ▸ List.mem_cons_self _ _)
      · rcases ih false h3 with h4 | h4
        · exact Or.inl (List.mem_cons_of_mem _ h4)
        · exact Or.inr h4

theorem mem_normalizeNewlinesAux_of_mem (b : Bool) (cs : List Char) (c : Char)
    (h : c ∈ cs) (hcr : c ≠ cr) (hlf : c ≠ lf) : c ∈ normalizeNewlinesAux b cs := by
  induction cs generalizing b with
  | nil => simp at h
  | cons d ds ih =>
    unfold normalizeNewlinesAux
    rcases List.mem_cons.mp h with h3 | h3
    · subst h3
      rw [if_neg hcr, if_neg (fun hh => hlf hh.1)]
      exact List.mem_cons_self _ _
    · split_ifs
      · exact List.mem_cons_of_mem _ (ih true h3)
      · exact ih false h3
      · exact List.mem_cons_of_mem _ (ih false h3)

theorem normalizeNewlinesAux_of_no_cr (cs : List Char) (h : ∀ c ∈ cs, c ≠ cr) :
    normalizeNewlinesAux false cs = cs := by
  induction cs with
  | nil => rfl
  | cons d ds ih =>
    unfold normalizeNewlinesAux
    rw [if_neg (h d (List.mem_cons_self _ _)), if_neg (fun hh => absurd hh.2 (by decide)),
      ih (fun c hc => h c (List.mem_cons_of_mem _ hc))]

theorem mem_store (k : FieldKind) (v : String) (c : Char) (h : c ∈ (k.store v).data) :
    c ∈ v.data ∨ c = lf := by
  cases k with
  | singleLine =>
    simp only [FieldKind.store, List.mem_filter] at h
    exact Or.inl h.1
  | multiLine => exact mem_normalizeNewlinesAux false v.data c h

theorem mem_store_of_mem (k : FieldKind) (v : String) (c : Char) (h : c ∈ v.data)
    (hw : isJsWhiteSpace c = false) : c ∈ (k.store v).data := by
  have hcr : c ≠ cr := by
    intro hh
    rw [hh, isJsWhiteSpace_cr] at hw
    exact absurd hw (by decide)
  have hlf : c ≠ lf := by
    intro hh
    rw [hh, isJsWhiteSpace_lf] at hw
    exact absurd hw (by decide)
  cases k with
  | singleLine =>
    simp only [FieldKind.store, List.mem_filter]
    refine ⟨h, ?_⟩
    simp [hcr, hlf]
  | multiLine => exact mem_normalizeNewlinesAux_of_mem false v.data c h hcr hlf

/-- Storing a value in the field neither brings in nor loses a character other than
whitespace. -/
theorem store_has_text_iff (k : FieldKind) (v : String) :
    (∃ c ∈ (k.store v).data, isJsWhiteSpace c = false) ↔
      (∃ c ∈ v.data, isJsWhiteSpace c = false) := by
  constructor
  · rintro ⟨c, hc, hw⟩
    rcases mem_store k v c hc with h1 | h1
    · exact ⟨c, h1, hw⟩
    · rw [h1, isJsWhiteSpace_lf] at hw
      exact absurd hw (by decide)
  · rintro ⟨c, hc, hw⟩
    exact ⟨c, mem_store_of_mem k v c hc hw, hw⟩

theorem store_blank (k : FieldKind) (v : String)
    (h : ∀ c ∈ v.data, isJsWhiteSpace c = true) :
    ∀ c ∈ (k.store v).data, isJsWhiteSpace c = true := by
  intro c hc
  rcases mem_store k v c hc with h1 | h1
  · exact h c h1
  · rw [h1]
    exact isJsWhiteSpace_lf

/-- A value without line breaks is stored as it is. -/
theorem store_eq_self (k : FieldKind) (v : String) (h : ∀ c ∈ v.data, c ≠ cr ∧ c ≠ lf) :
    k.store v = v := by
  cases k with
  | singleLine =>
    simp only [FieldKind.store]
    have : v.data.filter (fun c => !(c == lf || c == cr)) = v.data := by
      rw [List.filter_eq_self]
      intro c hc
      simp [(h c hc).1, (h c hc).2]
    rw [this]
  | multiLine =>
    simp only [FieldKind.store, normalizeNewlines]
    rw [normalizeNewlinesAux_of_no_cr v.data (fun c hc => (h c hc).1)]

/-! ### Markup of the course panel -/

theorem isPrefixOf_append_right (t l r : List Char) (h : t.isPrefixOf l = true) :
    t.isPrefixOf (l ++ r) = true := by
  rw [List.isPrefixOf_iff_prefix] at h ⊢
  exact h.trans (List.prefix_append l r)

theorem knownTags_any_append (l r : List Char)
    (h : knownTags.any (fun t => t.isPrefixOf l) = true) :
    knownTags.any (fun t => t.isPrefixOf (l ++ r)) = true := by
  rw [List.any_eq_true] at h ⊢
  obtain ⟨t, ht, hp⟩ := h
  exact ⟨t, ht, isPrefixOf_append_right t l r hp⟩

theorem scanToAnchor_cons (c : Char) (cs : List Char) :
    scanToAnchor (c :: cs) =
      if c = '<' then
        if knownTags.any (fun t => t.isPrefixOf (c :: cs)) then scanToAnchor cs
        else if anchorOpen.isPrefixOf (c :: cs) then
          some ((c :: cs).drop anchorOpen.length)
        else match cs with
          | d :: _ => if opensTag d then none else scanToAnchor cs
          | [] => none
      else scanToAnchor cs := by
  rw [scanToAnchor.eq_def]

/-- The scan passes over literal text of the template. -/
theorem scanToAnchor_templateText (xs rest : List Char) (h : templateText xs = true) :
    scanToAnchor (xs ++ rest) = scanToAnchor rest := by
  induction xs with
  | nil => rfl
  | cons c cs ih =>
    simp only [templateText, Bool.and_eq_true, Bool.or_eq_true] at h
    obtain ⟨h1, h2⟩ := h
    rw [List.cons_append, scanToAnchor_cons]
    by_cases hc : c = '<'
    · rw [if_pos hc]
      have hk : knownTags.any (fun t => t.isPrefixOf (c :: cs)) = true := by
        rcases h1 with h1 | h1
        · exact absurd hc (bne_iff_ne.mp h1)
        · exact h1
      have hk2 := knownTags_any_append (c :: cs) rest hk
      rw [List.cons_append] at hk2
      rw [if_pos hk2]
      exact ih h2
    · rw [if_neg hc]
      exact ih h2

theorem opensTag_of_known (d : Char)
    (h : d = 'h' ∨ d = '/' ∨ d = 'p' ∨ d = 's' ∨ d = 'a') : opensTag d = true := by
  rcases h with h | h | h | h | h <;> subst h <;> decide

theorem knownTags_any_second (d : Char) (ds : List Char)
    (h : knownTags.any (fun t => t.isPrefixOf ('<' :: d :: ds)) = true) :
    opensTag d = true := by
  apply opensTag_of_known
  simp only [knownTags, List.any_cons, List.any_nil, Bool.or_false, Bool.or_eq_true] at h
  rcases h with h | h | h | h | h | h
  all_goals
    rw [List.isPrefixOf_iff_prefix] at h
    obtain ⟨r, hr⟩ := h
    simp at hr
    simp [← hr.1]

theorem anchorOpen_second (d : Char) (ds : List Char)
    (h : anchorOpen.isPrefixOf ('<' :: d :: ds) = true) : opensTag d = true := by
  apply opensTag_of_known
  rw [List.isPrefixOf_iff_prefix] at h
  obtain ⟨r, hr⟩ := h
  simp [anchorOpen] at hr
  simp [← hr.1]

/-- The scan passes over text that opens no tag, when what follows it does not
turn a final `<` into the start of a tag. -/
theorem scanToAnchor_noTagOpen (xs : List Char) (r : Char) (rs : List Char)
    (h : noTagOpen xs = true) (hr : opensTag r = false) :
    scanToAnchor (xs ++ r :: rs) = scanToAnchor (r :: rs) := by
  induction xs with
  | nil => rfl
  | cons c cs ih =>
    simp only [noTagOpen, Bool.and_eq_true, Bool.or_eq_true] at h
    obtain ⟨h1, h2⟩ := h
    rw [List.cons_append, scanToAnchor_cons]
    by_cases hc : c = '<'
    · rw [if_pos hc]
      subst hc
      have hnext : ∃ d ds, cs ++ r :: rs = d :: ds ∧ opensTag d = false := by
        cases cs with
        | nil => exact ⟨r, rs, rfl, hr⟩
        | cons d ds =>
          refine ⟨d, ds ++ r :: rs, rfl, ?_⟩
          rcases h1 with h1 | h1
          · exact absurd rfl (bne_iff_ne.mp h1)
          · simpa using h1
      obtain ⟨d, ds, hd, hod⟩ := hnext
      rw [hd]
      have hk : knownTags.any (fun t => t.isPrefixOf ('<' :: d :: ds)) = false := by
        cases hh : knownTags.any (fun t => t.isPrefixOf ('<' :: d :: ds)) with
        | false => rfl
        | true =>
          rw [knownTags_any_second d ds hh] at hod
          exact absurd hod (by decide)
      have ha : anchorOpen.isPrefixOf ('<' :: d :: ds) = false := by
        cases hh : anchorOpen.isPrefixOf ('<' :: d :: ds) with
        | false => rfl
        | true =>
          rw [anchorOpen_second d ds hh] at hod
          exact absurd hod (by decide)
      simp only [hk, ha, hod, Bool.false_eq_true, if_false]
      rw [← hd]
      exact ih h2
    · rw [if_neg hc]
      exact ih h2

theorem scanToAnchor_anchorOpen (rest : List Char) :
    scanToAnchor (anchorOpen ++ rest) = some rest := by
  show scanToAnchor ('<' :: (anchorOpen.tail ++ rest)) = some rest
  rw [scanToAnchor_cons]
  have hk : knownTags.any (fun t => t.isPrefixOf ('<' :: (anchorOpen.tail ++ rest))) = false :=
    rfl
  have ha : anchorOpen.isPrefixOf ('<' :: (anchorOpen.tail ++ rest)) = true := by
    show anchorOpen.isPrefixOf (anchorOpen ++ rest) = true
    rw [List.isPrefixOf_iff_prefix]
    exact List.prefix_append _ _
  simp only [hk, ha, if_true, Bool.false_eq_true, if_false]
  rfl

theorem takeWhile_until_quote (value rest : List Char) (h : ∀ c ∈ value, c ≠ quoteChar) :
    (value ++ quoteChar :: rest).takeWhile (fun c => c != quoteChar) = value := by
  induction value with
  | nil => simp [List.takeWhile]
  | cons c cs ih =>
    have hc : (c != quoteChar) = true := bne_iff_ne.mpr (h c (List.mem_cons_self _ _))
    rw [List.cons_append, List.takeWhile_cons, hc,
      ih (fun d hd => h d (List.mem_cons_of_mem _ hd))]
    rfl

theorem attributeValue_plain (cs : List Char) (h : plainAttributeValue cs = true) :
    attributeValue cs = some cs := by
  simp only [plainAttributeValue, Bool.and_eq_true, List.all_eq_true, Bool.not_eq_true',
    Bool.or_eq_false_iff, beq_eq_false_iff_ne] at h
  obtain ⟨h1, h2⟩ := h
  have hn : normalizeNewlines cs = cs :=
    normalizeNewlinesAux_of_no_cr cs (fun c hc => (h1 c hc).1.2)
  have hm : cs.map (fun c => if c = nulChar then replacementChar else c) = cs := by
    calc cs.map (fun c => if c = nulChar then replacementChar else c)
        = cs.map id := List.map_congr_left (fun c hc => by rw [if_neg (h1 c hc).2]; rfl)
      _ = cs := List.map_id cs
  simp only [attributeValue, hn, h2, Bool.false_eq_true, if_false, hm]

theorem noTagOpen_of_numberChars (cs : List Char) (h : cs.all numberChar = true) :
    noTagOpen cs = true := by
  induction cs with
  | nil => rfl
  | cons c cs ih =>
    simp only [List.all_cons, Bool.and_eq_true] at h
    simp only [noTagOpen, Bool.and_eq_true, Bool.or_eq_true]
    refine ⟨Or.inl ?_, ih h.2⟩
    rw [bne_iff_ne]
    intro hc
    rw [hc] at h
    exact absurd h.1 (by decide)

theorem courseMarkup_data (title count url : String) :
    (courseMarkup title count url).data
      = "\n        <h3>课程生成成功</h3>\n        <p><strong>课程标题:</strong> ".data ++
          (title.data ++
            ("</p>\n        <p><strong>章节数量:</strong> ".data ++
              (count.data ++
                ("</p>\n        ".data ++
                  (anchorOpen ++
                    (url.data ++
                      (linkTail ++ "下载课程包</a>\n    ".data))))))) := by
  unfold courseMarkup
  repeat rw [String.data_append]
  have h3 : "</p>\n        <a href=\"".data = "</p>\n        ".data ++ anchorOpen := by decide
  have h4 : "\" class=\"download-btn\" target=\"_blank\">下载课程包</a>\n    ".data
      = linkTail ++ "下载课程包</a>\n    ".data := by
    decide
  rw [h3, h4]
  simp only [List.append_assoc]

/-- The reading of the link target on the markup of the template. -/
theorem linkTarget_courseMarkup (title count url : String)
    (ht : noTagOpen title.data = true) (hc : noTagOpen count.data = true)
    (hu : plainAttributeValue url.data = true) :
    linkTarget (courseMarkup title count url) = some url := by
  have hq : ∀ c ∈ url.data, c ≠ quoteChar := by
    simp only [plainAttributeValue, Bool.and_eq_true, List.all_eq_true, Bool.not_eq_true',
      Bool.or_eq_false_iff, beq_eq_false_iff_ne] at hu
    exact fun c hc => (hu.1 c hc).1.1
  have hscan : scanToAnchor (courseMarkup title count url).data
      = some (url.data ++ (linkTail ++ "下载课程包</a>\n    ".data)) := by
    rw [courseMarkup_data, scanToAnchor_templateText _ _ (by decide)]
    rw [show "</p>\n        <p><strong>章节数量:</strong> ".data
      = '<' :: "/p>\n        <p><strong>章节数量:</strong> ".data from by decide]
    rw [List.cons_append, scanToAnchor_noTagOpen _ _ _ ht (by decide)]
    rw [← List.cons_append,
      show '<' :: "/p>\n        <p><strong>章节数量:</strong> ".data
        = "</p>\n        <p><strong>章节数量:</strong> ".data from by decide,
      scanToAnchor_templateText _ _ (by decide)]
    rw [show "</p>\n        ".data = '<' :: "/p>\n        ".data from by decide]
    rw [List.cons_append, scanToAnchor_noTagOpen _ _ _ hc (by decide)]
    rw [← List.cons_append,
      show '<' :: "/p>\n        ".data = "</p>\n        ".data from by decide,
      scanToAnchor_templateText _ _ (by decide), scanToAnchor_anchorOpen]
  have htail : linkTail = quoteChar :: linkTail.tail := by decide
  unfold linkTarget
  rw [hscan]
  simp only
  have htw : (url.data ++ (linkTail ++ "下载课程包</a>\n    ".data)).takeWhile
      (fun c => c != quoteChar) = url.data := by
    rw [htail, List.cons_append]
    exact takeWhile_until_quote _ _ hq
  rw [htw, List.drop_left]
  have hp : linkTail.isPrefixOf (linkTail ++ "下载课程包</a>\n    ".data) = true := by
    rw [List.isPrefixOf_iff_prefix]
    exact List.prefix_append _ _
  rw [if_pos hp, attributeValue_plain _ hu]
  rfl


/-! ## Claims -/

/-- C1: when `isProcessing` is true, or the input value is empty or made of
whitespace only, `sendMessage()` returns at its guard: whatever the network would
answer, the whole client state, the request log and the transcript included, is
the state before the call. -/
theorem sendMessage_guard_noop (s : Client) (o : Outcome)
    (h : s.isProcessing = true ∨ ∀ c ∈ s.userInput.data, isJsWhiteSpace c = true) :
    sendMessage o s = s ∧ (sendMessage o s).requests = s.requests ∧
      (sendMessage o s).chatHistory = s.chatHistory := by
  have hg : sendMessageReturnsEarly s = true := (sendMessageReturnsEarly_iff s).mpr h
  simp [sendMessage, hg]

/-- Instance of C1: a field holding a space, a tab and a line feed. -/
theorem sendMessage_guard_noop_witness :
    sendMessage .rejected { Client.initial with userInput := " \t\n" }
        = { Client.initial with userInput := " \t\n" } ∧
      (sendMessage .rejected { Client.initial with userInput := " \t\n" }).requests
        = ({ Client.initial with userInput := " \t\n" } : Client).requests ∧
      (sendMessage .rejected { Client.initial with userInput := " \t\n" }).chatHistory
        = ({ Client.initial with userInput := " \t\n" } : Client).chatHistory :=
  sendMessage_guard_noop { Client.initial with userInput := " \t\n" } .rejected
    (Or.inr (by decide))

/-- C2: from a state with `isProcessing` false and an input holding a
non-whitespace character, `sendMessage()` ends, for every outcome of the request
(any parsed body, a rejected fetch, a body that is no JSON), with `isProcessing`
false and the send button enabled. -/
theorem sendMessage_clears_processing (s : Client) (o : Outcome)
    (hp : s.isProcessing = false)
    (hi : ∃ c ∈ s.userInput.data, isJsWhiteSpace c = false) :
    (sendMessage o s).isProcessing = false ∧ (sendMessage o s).sendDisabled = false := by
  have hg := sendMessageReturnsEarly_eq_false s hp hi
  simp only [sendMessage, hg]
  exact sendMessageResume_flags o (sendMessageBegin s)

/-- Instance of C2: the input `hi` and a body that is no JSON. -/
theorem sendMessage_clears_processing_witness :
    (sendMessage .parseFailure { Client.initial with userInput := "hi" }).isProcessing
        = false ∧
      (sendMessage .parseFailure { Client.initial with userInput := "hi" }).sendDisabled
        = false :=
  sendMessage_clears_processing { Client.initial with userInput := "hi" } .parseFailure rfl
    ⟨'h', by decide, by decide⟩

/-- C3: after `startSession()` receives a parsed body with `session_id`, `message`
and `next_prompt`, the transcript is the prior transcript followed by exactly two
consultant entries, the greeting and then the prompt, and `sessionId` is the
returned identifier. -/
theorem startSession_appends_greeting_prompt (s : Client) (r : StartResponse) :
    (startSession (.parsed r.toObj) s).chatHistory
        = s.chatHistory ++
          [Node.message "consultant" r.message, Node.message "consultant" r.next_prompt] ∧
      (startSession (.parsed r.toObj) s).sessionId = .str r.session_id := by
  simp [startSession, startSessionResume, startSessionBegin, addMessage,
    StartResponse.toObj, JsVal.domString, JsVal.toStr]

/-- C4: after `showOptions(options)` the container holds one button per option, in
input order, the i-th labelled with the i-th option, whatever it held before; for
the empty array it holds no button. -/
theorem showOptions_replaces_buttons (options : List String) (s : Client) :
    (showOptions options s).optionButtons
        = options.map (fun o => { textContent := o, option := o }) ∧
      (showOptions options s).optionButtons.length = options.length ∧
      (showOptions options s).optionButtons.map OptionButton.textContent = options ∧
      (showOptions [] s).optionButtons = [] := by
  refine ⟨showOptions_buttons options s, ?_, ?_, ?_⟩
  · rw [showOptions_buttons]
    simp
  · rw [showOptions_buttons]
    simp [Function.comp_def]
  · rw [showOptions_buttons]
    rfl

set_option maxRecDepth 100000 in
/-- C9, refuted as stated: after `showCourseInfo` has written a title that is markup
of an element with id `loadingIndicator`, the transcript holds no placeholder, and
`removeLoading()` still finds an element, in the course panel, and removes it. -/
theorem removeLoading_takes_from_panel :
    (∀ n ∈ (showCourseInfo injectedCourse.toObj
        { Client.initial with page := Page.injected }).chatHistory, n.isLoading = false) ∧
      (showCourseInfo injectedCourse.toObj
        { Client.initial with page := Page.injected }).panelLoading = 1 ∧
      (removeLoading (showCourseInfo injectedCourse.toObj
        { Client.initial with page := Page.injected })).panelLoading = 0 := by
  decide

/-- C9, as amended: on a transcript with no loading placeholder `removeLoading()`
returns normally and leaves the transcript and every other part of the client state
as it was, but for the course panel, which loses the first outermost element with
id `loadingIndicator` that unescaped markup brought into it, if there is one; when
no element of the document carries the id, the whole client state is unchanged. -/
theorem removeLoading_without_placeholder (s : Client)
    (h : ∀ n ∈ s.chatHistory, n.isLoading = false) :
    removeLoading s = { s with panelLoading := s.panelLoading - 1 } ∧
      (removeLoading s).chatHistory = s.chatHistory ∧
      (s.panelLoading = 0 → removeLoading s = s) := by
  have hany : s.chatHistory.any Node.isLoading = false := by
    rw [List.any_eq_false]
    intro n hn
    simp [h n hn]
  have heta : ∀ n, s.panelLoading = n → { s with panelLoading := n } = s := by
    intro n hn
    cases s
    cases hn
    rfl
  have hcases : removeLoading s = { s with panelLoading := s.panelLoading - 1 } := by
    unfold removeLoading findLoading
    simp only [hany]
    by_cases hp : 0 < s.panelLoading
    · simp [hp]
    · have h0 : s.panelLoading = 0 := by omega
      simp only [h0, Nat.lt_irrefl, decide_False, Bool.false_and, Bool.false_eq_true, if_false]
      exact (heta 0 h0).symm
  refine ⟨hcases, ?_, ?_⟩
  · rw [hcases]
  · intro h0
    rw [hcases, h0]
    exact heta 0 h0

/-- Instance of C9 as amended: a transcript holding one user message, no element
with the id in the course panel. -/
theorem removeLoading_without_placeholder_witness :
    removeLoading (addMessage "user" "hi" Client.initial)
      = addMessage "user" "hi" Client.initial :=
  (removeLoading_without_placeholder (addMessage "user" "hi" Client.initial)
    (by decide)).2.2 rfl

/-- C10: past the guard, and for every parsed interaction body, the transcript after
`sendMessage()` is the prior transcript, then one user entry with the trimmed input,
then a consultant entry for each of `message`, `next_prompt`, `error` that is
present and non-empty, in this order, each decided on its own field; and the text of
the user entry is the `user_input` of the one request sent. -/
theorem sendMessage_transcript (s : Client) (r : InteractResponse)
    (hp : s.isProcessing = false)
    (hi : ∃ c ∈ s.userInput.data, isJsWhiteSpace c = false) :
    (sendMessage (.parsed r.toObj) s).chatHistory
        = s.chatHistory ++ [Node.message "user" (jsTrim s.userInput)] ++
          consultantEntry r.message ++ consultantEntry r.next_prompt ++
          consultantEntry r.error ∧
      (sendMessage (.parsed r.toObj) s).requests
        = s.requests ++ [Request.interact s.sessionId (jsTrim s.userInput)] := by
  have hg := sendMessageReturnsEarly_eq_false s hp hi
  obtain ⟨h1, h2⟩ := sendMessageTry_typed_chatHistory r (sendMessageBegin s)
  have h3 := sendMessageTry_typed_requests r (sendMessageBegin s)
  constructor
  · simp only [sendMessage, hg, sendMessageResume]
    rw [show sendMessageTry (.parsed r.toObj) (sendMessageBegin s)
      = ((sendMessageTry (.parsed r.toObj) (sendMessageBegin s)).1, false) from
        Prod.ext rfl h2]
    simp only [Bool.false_eq_true, if_false]
    rw [h1]
    simp [sendMessageBegin, addMessage]
  · simp only [sendMessage, hg, sendMessageResume]
    rw [show sendMessageTry (.parsed r.toObj) (sendMessageBegin s)
      = ((sendMessageTry (.parsed r.toObj) (sendMessageBegin s)).1, false) from
        Prod.ext rfl h2]
    simp only [Bool.false_eq_true, if_false]
    rw [h3]
    simp [sendMessageBegin, addMessage]

/-- Instance of C10: the input ` hi ` answered with a message, two options and an error. -/
theorem sendMessage_transcript_witness :
    (sendMessage
        (.parsed (InteractResponse.toObj
          { message := some "m", next_prompt := none, options := some ["a", "b"],
            course_title := none, chapter_count := none, download_url := none,
            error := some "e" }))
        { Client.initial with userInput := " hi " }).chatHistory
      = ({ Client.initial with userInput := " hi " } : Client).chatHistory ++
          [Node.message "user" (jsTrim ({ Client.initial with userInput := " hi " } : Client).userInput)] ++
          consultantEntry (some "m") ++ consultantEntry none ++ consultantEntry (some "e") ∧
    (sendMessage
        (.parsed (InteractResponse.toObj
          { message := some "m", next_prompt := none, options := some ["a", "b"],
            course_title := none, chapter_count := none, download_url := none,
            error := some "e" }))
        { Client.initial with userInput := " hi " }).requests
      = ({ Client.initial with userInput := " hi " } : Client).requests ++
          [Request.interact ({ Client.initial with userInput := " hi " } : Client).sessionId
            (jsTrim ({ Client.initial with userInput := " hi " } : Client).userInput)] :=
  sendMessage_transcript { Client.initial with userInput := " hi " }
    { message := some "m", next_prompt := none, options := some ["a", "b"],
      course_title := none, chapter_count := none, download_url := none,
      error := some "e" }
    rfl ⟨'h', by decide, by decide⟩


/-- C5, refuted as stated: with `isProcessing` true, a click on the rendered option
`A` stores `A` in the input field and sends nothing. -/
theorem clickOption_while_processing_sends_nothing :
    (clickOption 0 (showOptions ["A"] { Client.initial with isProcessing := true })).1.requests
        = (showOptions ["A"] { Client.initial with isProcessing := true }).requests ∧
      (clickOption 0 (showOptions ["A"] { Client.initial with isProcessing := true })).1.requests
        ≠ (showOptions ["A"] { Client.initial with isProcessing := true }).requests ++
            [Request.interact
              (showOptions ["A"] { Client.initial with isProcessing := true }).sessionId "A"] ∧
      (clickOption 0 (showOptions ["A"] { Client.initial with isProcessing := true })).1.userInput
        = "A" := by
  decide

/-- C5, as amended: a click on the `k`-th button rendered by `showOptions(options)`
assigns that option to the value of the input field, which stores it the way its
control does (a single-line input without its line breaks, a `textarea` with them
normalised; an option without line breaks as it is), and calls `sendMessage()`.
From an idle client and an option with a non-whitespace character this issues
exactly one interaction request, whose `user_input` is the stored text trimmed, and
leaves the field cleared; when `isProcessing` is true or the option is blank nothing
is sent and the field keeps the stored text. -/
theorem clickOption_sends_when_idle (options : List String) (k : Nat) (opt : String)
    (s : Client)
    (hb : s.optionButtons = (showOptions options s).optionButtons)
    (hk : options.get? k = some opt) :
    (s.isProcessing = false → (∃ c ∈ opt.data, isJsWhiteSpace c = false) →
        clickOption k s
          = (sendMessageBegin { s with userInput := s.page.inputKind.store opt }, true) ∧
        (clickOption k s).1.requests
          = s.requests ++
              [Request.interact s.sessionId (jsTrim (s.page.inputKind.store opt))] ∧
        (clickOption k s).1.userInput = "") ∧
      ((s.isProcessing = true ∨ ∀ c ∈ opt.data, isJsWhiteSpace c = true) →
        clickOption k s = ({ s with userInput := s.page.inputKind.store opt }, false) ∧
        (clickOption k s).1.requests = s.requests) ∧
      ((∀ c ∈ opt.data, c ≠ cr ∧ c ≠ lf) → s.page.inputKind.store opt = opt) := by
  have hbtn : s.optionButtons.get? k = some { textContent := opt, option := opt } := by
    rw [hb, showOptions_buttons, List.get?_eq_getElem?, List.getElem?_map,
      ← List.get?_eq_getElem?, hk]
    rfl
  refine ⟨?_, ?_, store_eq_self s.page.inputKind opt⟩
  · intro hp hi
    have hg : sendMessageReturnsEarly { s with userInput := s.page.inputKind.store opt }
        = false :=
      sendMessageReturnsEarly_eq_false { s with userInput := s.page.inputKind.store opt } hp
        ((store_has_text_iff s.page.inputKind opt).mpr hi)
    have hc : clickOption k s
        = (sendMessageBegin { s with userInput := s.page.inputKind.store opt }, true) := by
      simp only [clickOption, hbtn]
      simp [hg]
    rw [hc]
    simp [sendMessageBegin, addMessage]
  · intro h
    have hg : sendMessageReturnsEarly { s with userInput := s.page.inputKind.store opt }
        = true := by
      refine (sendMessageReturnsEarly_iff
        { s with userInput := s.page.inputKind.store opt }).mpr ?_
      rcases h with h | h
      · exact Or.inl h
      · exact Or.inr (store_blank s.page.inputKind opt h)
    have hc : clickOption k s
        = ({ s with userInput := s.page.inputKind.store opt }, false) := by
      simp only [clickOption, hbtn]
      simp [hg]
    rw [hc]
    exact ⟨rfl, rfl⟩

/-- Instance of C5 as amended: a click on the second of two options, ` B `, in an
idle client. -/
theorem clickOption_sends_when_idle_witness :
    clickOption 1 (showOptions ["A", " B "] Client.initial)
        = (sendMessageBegin
            { showOptions ["A", " B "] Client.initial with
              userInput := (showOptions ["A", " B "] Client.initial).page.inputKind.store " B " },
            true) ∧
      (clickOption 1 (showOptions ["A", " B "] Client.initial)).1.requests
        = (showOptions ["A", " B "] Client.initial).requests ++
            [Request.interact (showOptions ["A", " B "] Client.initial).sessionId
              (jsTrim ((showOptions ["A", " B "] Client.initial).page.inputKind.store " B "))] ∧
      (clickOption 1 (showOptions ["A", " B "] Client.initial)).1.userInput = "" :=
  (clickOption_sends_when_idle ["A", " B "] 1 " B " (showOptions ["A", " B "] Client.initial)
    (by decide) rfl).1 rfl ⟨'B', by decide, by decide⟩

/-- A click on an option with a carriage return in a single-line input: the request
carries the option without it. -/
theorem clickOption_strips_line_break :
    (clickOption 0 (showOptions ["A\rB"] Client.initial)).1.requests
      = [Request.interact JsVal.null "AB"] := by
  decide

/-- C6, refuted as stated: for the object of the example, with properties `title`,
`chapterCount` and `downloadUrl`, the target of the rendered link is `undefined`,
not `/x`. -/
theorem showCourseInfo_camelCase_link_undefined :
    linkTarget (showCourseInfo camelCaseCourse Client.initial).courseHTML = some "undefined" ∧
      linkTarget (showCourseInfo camelCaseCourse Client.initial).courseHTML ≠ some "/x" ∧
      (showCourseInfo camelCaseCourse Client.initial).courseDisplay = "block" := by
  decide

/-- C6, as amended: `showCourseInfo(data)` reads the properties `course_title`,
`chapter_count` and `download_url`. For a course result under these names whose
title opens no tag and whose URL is text that a double-quoted attribute value hands
back unchanged (no quotation mark, carriage return or NUL, no character reference
that the parser decodes), the panel becomes visible, its former contents play no
part in the new ones, and the target of the rendered download link is the URL. -/
theorem showCourseInfo_link_target (s : Client) (r : CourseResult)
    (ht : noTagOpen r.course_title.data = true)
    (hu : plainAttributeValue r.download_url.data = true) :
    (showCourseInfo r.toObj s).courseDisplay = "block" ∧
      (showCourseInfo r.toObj s).courseHTML
        = courseMarkup r.course_title r.chapter_count.text r.download_url ∧
      linkTarget (showCourseInfo r.toObj s).courseHTML = some r.download_url := by
  have hm : (showCourseInfo r.toObj s).courseHTML
      = courseMarkup r.course_title r.chapter_count.text r.download_url := rfl
  refine ⟨rfl, hm, ?_⟩
  rw [hm]
  exact linkTarget_courseMarkup _ _ _ ht
    (noTagOpen_of_numberChars _ r.chapter_count.text_plain) hu

/-- Instance of C6 as amended: the course of the example under the names the script
reads. -/
theorem showCourseInfo_link_target_witness :
    (showCourseInfo
        (CourseResult.toObj
          { course_title := "T", chapter_count := JsNumber.five, download_url := "/x" })
        Client.initial).courseDisplay = "block" ∧
      (showCourseInfo
        (CourseResult.toObj
          { course_title := "T", chapter_count := JsNumber.five, download_url := "/x" })
        Client.initial).courseHTML = courseMarkup "T" JsNumber.five.text "/x" ∧
      linkTarget (showCourseInfo
        (CourseResult.toObj
          { course_title := "T", chapter_count := JsNumber.five, download_url := "/x" })
        Client.initial).courseHTML = some "/x" :=
  showCourseInfo_link_target Client.initial
    { course_title := "T", chapter_count := JsNumber.five, download_url := "/x" }
    (by decide) (by decide)

set_option maxRecDepth 1000000 in
/-- An ampersand that separates query parameters is no character reference: the URL
is text a double-quoted attribute value hands back unchanged. -/
theorem plainAttributeValue_query : plainAttributeValue "/d?a=1&b=2".data = true := by
  decide

/-- C7, as amended: from a transcript without placeholder, every sequence of events
(calls of the script's functions, user input, completions of requests) in which
`showLoading` is called only while no placeholder is present leaves at most one
placeholder in the transcript. -/
theorem loadingCount_le_one_of_run (es : List Event) (σ0 σ : Sys)
    (h0 : loadingCount σ0.client = 0)
    (hrun : runWhere showLoadingWhenAbsent es σ0 = some σ) :
    loadingCount σ.client ≤ 1 := by
  refine runWhere_invariant showLoadingWhenAbsent (fun τ => loadingCount τ.client ≤ 1)
    ?_ es σ0 σ (by omega) hrun
  intro e τ τ1 ha hP hs
  by_cases hl : ∃ text, e = Event.showLoading text
  · obtain ⟨text, rfl⟩ := hl
    simp only [showLoadingWhenAbsent, beq_iff_eq] at ha
    simp only [step, Option.some.injEq] at hs
    subst hs
    show loadingCount (showLoading text τ.client) ≤ 1
    rw [loadingCount_showLoading, ha]
  · have := loadingCount_step e τ τ1 hs (fun text he => hl ⟨text, he⟩)
    exact Nat.le_trans this hP

/-- Instance of C7 as amended: a placeholder shown, removed and shown again. -/
theorem loadingCount_le_one_of_run_witness :
    loadingCount
        ({ client := showLoading "b" (removeLoading (showLoading "a" Client.initial)),
           pendingStart := 0, pendingSend := 0, pendingGenerate := 0 } : Sys).client ≤ 1 :=
  loadingCount_le_one_of_run
    [Event.showLoading "a", Event.removeLoading, Event.showLoading "b"] Sys.initial
    { client := showLoading "b" (removeLoading (showLoading "a" Client.initial)),
      pendingStart := 0, pendingSend := 0, pendingGenerate := 0 }
    rfl rfl

/-- C7, refuted as stated: two calls of `showLoading` in a row leave two placeholders
in the transcript. -/
theorem showLoading_twice_two_placeholders :
    (run [Event.showLoading "a", Event.showLoading "b"] Sys.initial).map
        (fun σ => loadingCount σ.client) = some 2 ∧
      loadingCount Sys.initial.client = 0 := by
  decide

/-- C8, refuted as stated: once `startSession()` has issued its request, a request
is in flight and `isProcessing` is false. -/
theorem startSession_in_flight_not_processing :
    (run [Event.startSessionCall] Sys.initial).map
        (fun σ => (σ.pendingStart, σ.client.isProcessing)) = some (1, false) := by
  decide

/-- C8, as amended: in every state reached from an idle client by any interleaving
of events, `isProcessing` is true only while an interaction request of
`sendMessage` is in flight, hence false whenever no request is in flight; requests
of `startSession` and `generateCourse` never raise it. In an interleaving in which
no `generateCourse` request completes, `isProcessing` is true exactly while an
interaction request is in flight, and at most one is. -/
theorem isProcessing_tracks_interaction (es : List Event) (σ0 σ : Sys)
    (h0 : σ0.client.isProcessing = false) (hp : σ0.pendingSend = 0)
    (hrun : run es σ0 = some σ) :
    (σ.client.isProcessing = true → 0 < σ.pendingSend) ∧
      (σ.pendingStart + σ.pendingSend + σ.pendingGenerate = 0 →
        σ.client.isProcessing = false) ∧
      ((∀ e ∈ es, ∀ o, e ≠ Event.generateCourseDone o) →
        (σ.client.isProcessing = true ↔ 0 < σ.pendingSend) ∧ σ.pendingSend ≤ 1) := by
  have h1 : σ.client.isProcessing = true → 0 < σ.pendingSend := by
    refine runWhere_invariant (fun _ _ => true)
      (fun τ => τ.client.isProcessing = true → 0 < τ.pendingSend) ?_ es σ0 σ ?_ hrun
    · intro e τ τ1 _ hI hs
      exact step_processing_pending e τ τ1 hs hI
    · intro hh
      rw [h0] at hh
      exact absurd hh (by decide)
  refine ⟨h1, ?_, ?_⟩
  · intro hz
    cases hb : σ.client.isProcessing with
    | false => rfl
    | true =>
      have := h1 hb
      omega
  · intro hall
    have hrun2 : runWhere noGenerateCourseDone es σ0 = some σ := by
      refine runWhere_of_run noGenerateCourseDone es σ0 σ ?_ hrun
      intro e he τ
      cases e <;> first | rfl | exact absurd rfl (hall _ he _)
    have h2 : σ.pendingSend = if σ.client.isProcessing = true then 1 else 0 := by
      refine runWhere_invariant noGenerateCourseDone
        (fun τ => τ.pendingSend = if τ.client.isProcessing = true then 1 else 0)
        ?_ es σ0 σ ?_ hrun2
      · intro e τ τ1 ha hI hs
        exact step_processing_exact e τ τ1 hs ha hI
      · simp [h0, hp]
    cases hb : σ.client.isProcessing with
    | false =>
      rw [hb] at h2
      simp at h2
      simp [h2]
    | true =>
      rw [hb] at h2
      simp at h2
      simp [h2]

/-- Instance of C8 as amended: the session request and one interaction request in flight. -/
theorem isProcessing_tracks_interaction_witness :
    0 < ({ client := sendMessageBegin
            { startSessionBegin Client.initial with userInput := "hi" },
           pendingStart := 1, pendingSend := 1, pendingGenerate := 0 } : Sys).pendingSend :=
  (isProcessing_tracks_interaction
    [Event.startSessionCall, Event.input "hi", Event.sendMessageCall] Sys.initial
    { client := sendMessageBegin { startSessionBegin Client.initial with userInput := "hi" },
      pendingStart := 1, pendingSend := 1, pendingGenerate := 0 }
    rfl rfl rfl).1 rfl

end ChatClient
